import Mathlib

/-!
# AP_L1_Control: lateral guidance engine

A shallow embedding of `libraries/AP_L1_Control/AP_L1_Control.cpp`.

Modelling conventions.

* `float` values are elements of a linearly ordered field `F` with a floor function,
  so arithmetic is exact: rounding, infinities and NaN are outside the model.  Every
  definition is generic in `F`; at `F = ℚ` the arithmetic is executable, at `F = ℝ`
  the C math library can be given its mathematical meaning (`realEnv`).
* The C math library (`sinf`, `cosf`, `atan2f`, ..., `M_PI`) and the constants and
  predicates of AP_Math whose text is not part of this translation unit
  (`GRAVITY_MSS`, `is_zero`) are fields of an environment `Env F`.
* `Location` is an abstract type; its geometry (`get_bearing_to`, `get_distance_NE`,
  `get_relative_pos`) is a parameter `Geo Loc F`.
* One call of an `update_*` method is a function from the pre-state to the post-state.
  The AHRS readings of that control tick, the TECS target airspeed and the parameter
  block are explicit arguments.
-/

namespace L1Control

/-! ## Collaborators: math library, vectors, locations, AHRS, TECS -/

/-- The C math library and the AP_Math constants the translation unit refers to. -/
structure Env (F : Type) where
  /-- The constant `M_PI` of math.h. -/
  M_PI : F
  /-- The constant `GRAVITY_MSS` of AP_Math. -/
  GRAVITY_MSS : F
  sinf : F → F
  cosf : F → F
  tanf : F → F
  asinf : F → F
  atanf : F → F
  /-- The call `atan2f(y, x)`. -/
  atan2f : F → F → F
  sqrtf : F → F
  /-- The predicate `is_zero` of AP_Math. -/
  is_zero : F → Bool

/-- The class `Vector2f` of AP_Math: a pair of floats (North, East). -/
structure Vector2f (F : Type) where
  x : F
  y : F

/-- The operations of `Location` used by the controller. -/
structure Geo (Loc F : Type) where
  /-- The call `a.get_bearing_to(b)`, centidegrees. -/
  get_bearing_to : Loc → Loc → Int
  /-- The call `a.get_distance_NE(b)`: the North-East vector from `a` to `b`, metres. -/
  get_distance_NE : Loc → Loc → Vector2f F
  /-- The call `a.get_relative_pos(b)`. -/
  get_relative_pos : Loc → Loc → Vector2f F

/-- The readings of the navigation source (`_ahrs`) during one control tick. -/
structure AHRS (Loc F : Type) where
  /-- The value of `_ahrs.get_yaw()`, radians. -/
  yaw : F
  /-- The value of `_ahrs.yaw_sensor`, centidegrees. -/
  yaw_sensor : Int
  /-- The value of `_ahrs.get_pitch()`, radians. -/
  pitch : F
  /-- The value of `_ahrs.get_EAS2TAS()`. -/
  EAS2TAS : F
  /-- The outcome of `_ahrs.get_location(loc)`: `none` when it returns false. -/
  location : Option Loc
  /-- The value of `_ahrs.groundspeed_vector()`. -/
  groundspeed_vector : Vector2f F

/-- The airspeed controller behind the pointer `_tecs`. -/
structure TECS (F : Type) where
  /-- The value of `_tecs->get_target_airspeed()`. -/
  target_airspeed : F

/-- The user settable parameters of `var_info`. -/
structure Config (F : Type) where
  /-- Parameter PERIOD, range 1 60. -/
  _L1_period : F
  /-- Parameter DAMPING, range 0.6 1.0. -/
  _L1_damping : F
  /-- Parameter XTRACK_I, range 0 0.1. -/
  _L1_xtrack_i_gain : F
  /-- Parameter L_DIST, range 1 90. -/
  _L_dist : F
  /-- Parameter L_METHOD, range 0 1. -/
  _L_method : F
  /-- Parameter LIM_BANK, range 0 89. -/
  _loiter_bank_limit : F

/-- The mutable members of `AP_L1_Control`. -/
structure State (F : Type) where
  /-- Look-ahead distance, metres. -/
  _L1_dist : F
  /-- Lateral acceleration demand, m/s/s. -/
  _latAccDem : F
  /-- Bearing error angle, radians. -/
  _bearing_error : F
  /-- Bearing from the aircraft to the L1 point, radians. -/
  _nav_bearing : F
  /-- Bearing to the target, centidegrees. -/
  _target_bearing_cd : Int
  /-- Crosstrack error, metres. -/
  _crosstrack_error : F
  /-- Turn error of the previous call, radians. -/
  _last_Nu : F
  /-- Status which is true when the vehicle has started circling the waypoint. -/
  _WPcircle : Bool
  /-- Status which is true when no position was available at the last update. -/
  _data_is_stale : Bool
  /-- Reverse flag. -/
  _reverse : Bool
  /-- The member `_last_loiter.reached_loiter_target_ms`. -/
  reached_loiter_target_ms : Nat

section Model

variable {F : Type} [LinearOrderedField F] [FloorRing F] {Loc : Type}

/-! ## AP_Math helpers -/

/-- Modelled from the spec: the macro `MIN(a,b)` of AP_Math, `((a)<(b)?(a):(b))`, the
lesser of two values. -/
def MIN (a b : F) : F := if a < b then a else b

/-- Modelled from the spec: the macro `MAX(a,b)` of AP_Math, `((a)>(b)?(a):(b))`, the
larger of two values. -/
def MAX (a b : F) : F := if a > b then a else b

/-- Modelled from the spec: `sq` of AP_Math, the square. -/
def sq (x : F) : F := x * x

/-- Modelled from the spec: `constrain_float(amt, low, high)` of AP_Math, the clamp of
`amt` to the interval from `low` to `high`. -/
def constrain_float (amt low high : F) : F :=
  if amt < low then low else if amt > high then high else amt

/-- Modelled from the spec: `radians` of AP_Math, degrees to radians. -/
def radians (env : Env F) (deg : F) : F := deg * (env.M_PI / 180)

/-- Modelled from the spec: `degrees` of AP_Math, radians to degrees. -/
def degrees (env : Env F) (rad : F) : F := rad * (180 / env.M_PI)

/-- Modelled from the spec: `RadiansToCentiDegrees` of AP_Math. -/
def RadiansToCentiDegrees (env : Env F) (rad : F) : F := rad * (180 / env.M_PI) * 100

/-- The constant `M_PI_2` of math.h. -/
def M_PI_2 (env : Env F) : F := env.M_PI / 2

/-- Conversion of a `float` to `int32_t`: truncation toward zero. -/
def toInt32 (x : F) : Int := if 0 ≤ x then ⌊x⌋ else ⌈x⌉

/-- Modelled from the spec: `wrap_180_cd` of AP_Math on integers, wrap to ±18000
centidegrees. -/
def wrap_180_cd (angle : Int) : Int :=
  let res := angle % 36000
  if res > 18000 then res - 36000 else res

/-- Modelled from the spec: `wrap_180_cd` of AP_Math on floats, wrap to ±18000
centidegrees. -/
def wrap_180_cd_float (angle : F) : F :=
  let res := angle - 36000 * ((⌊angle / 36000⌋ : Int) : F)
  if res > 18000 then res - 36000 else res

/-- Modelled from the spec: `wrap_PI` of AP_Math, wrap to [-π, π]. -/
def wrap_PI (env : Env F) (radian : F) : F :=
  let res := radian - (2 * env.M_PI) * ((⌊radian / (2 * env.M_PI)⌋ : Int) : F)
  if res > env.M_PI then res - 2 * env.M_PI else res

namespace Vector2f

/-- Modelled from the spec: `Vector2f::length`, the Euclidean length. -/
def length (env : Env F) (v : Vector2f F) : F := env.sqrtf (sq v.x + sq v.y)

/-- Modelled from the spec: `operator *` with a scalar, uniform scale. -/
def scale (v : Vector2f F) (k : F) : Vector2f F := ⟨v.x * k, v.y * k⟩

/-- Modelled from the spec: `operator *` of two vectors, the dot product. -/
def dot (v w : Vector2f F) : F := v.x * w.x + v.y * w.y

/-- Modelled from the spec: `operator %`, the 2-D cross product. -/
def cross (v w : Vector2f F) : F := v.x * w.y - v.y * w.x

/-- Modelled from the spec: unary `operator -`. -/
def neg (v : Vector2f F) : Vector2f F := ⟨-v.x, -v.y⟩

/-- Modelled from the spec: binary `operator -`. -/
def sub (v w : Vector2f F) : Vector2f F := ⟨v.x - w.x, v.y - w.y⟩

/-- Modelled from the spec: `Vector2f::normalized` (and the in place `normalize`),
division of both components by the length. -/
def normalized (env : Env F) (v : Vector2f F) : Vector2f F :=
  ⟨v.x / length env v, v.y / length env v⟩

end Vector2f

/-! ## Accessors -/

/-- Method `AP_L1_Control::get_yaw`. -/
def get_yaw (env : Env F) (ahrs : AHRS Loc F) (s : State F) : F :=
  if s._reverse then wrap_PI env (env.M_PI + ahrs.yaw) else ahrs.yaw

/-- Method `AP_L1_Control::get_yaw_sensor`. -/
def get_yaw_sensor (ahrs : AHRS Loc F) (s : State F) : Int :=
  if s._reverse then wrap_180_cd (18000 + ahrs.yaw_sensor) else ahrs.yaw_sensor

/-- Method `AP_L1_Control::nav_roll_cd`. -/
def nav_roll_cd (env : Env F) (ahrs : AHRS Loc F) (s : State F) : Int :=
  let pitchLimL1 := radians env 60
  let pitchL1 := constrain_float ahrs.pitch (-pitchLimL1) pitchLimL1
  let ret := degrees env (env.atanf (s._latAccDem * (1 / (env.GRAVITY_MSS * env.cosf pitchL1)))) * 100
  let ret := constrain_float ret (-9000) 9000
  toInt32 ret

/-- Method `AP_L1_Control::lateral_acceleration`. -/
def lateral_acceleration (s : State F) : F := s._latAccDem

/-- Method `AP_L1_Control::nav_bearing_cd`. -/
def nav_bearing_cd (env : Env F) (s : State F) : Int :=
  toInt32 (wrap_180_cd_float (RadiansToCentiDegrees env s._nav_bearing))

/-- Method `AP_L1_Control::bearing_error_cd`. -/
def bearing_error_cd (env : Env F) (s : State F) : Int :=
  toInt32 (RadiansToCentiDegrees env s._bearing_error)

/-- Method `AP_L1_Control::target_bearing_cd`. -/
def target_bearing_cd (s : State F) : Int := wrap_180_cd s._target_bearing_cd

/-- Modelled from the spec: the accessor `crosstrack_error` declared in the header, which
returns the stored crosstrack error. -/
def crosstrack_error (s : State F) : F := s._crosstrack_error

/-- Method `AP_L1_Control::reached_loiter_target`. -/
def reached_loiter_target (s : State F) : Bool := s._WPcircle

/-! ## Turn distance and loiter radius -/

/-- Method `AP_L1_Control::turn_distance(float)`: the turn distance assuming a 90 degree
turn. -/
def turn_distance (ahrs : AHRS Loc F) (s : State F) (wp_radius : F) : F :=
  let wp_radius := wp_radius * sq ahrs.EAS2TAS
  MIN wp_radius s._L1_dist

/-- Method `AP_L1_Control::turn_distance(float, float)`. -/
def turn_distance_angle (ahrs : AHRS Loc F) (s : State F) (wp_radius turn_angle : F) : F :=
  let distance_90 := turn_distance ahrs s wp_radius
  let turn_angle := |turn_angle|
  if turn_angle ≥ 90 then distance_90 else distance_90 * turn_angle / 90

/-- Method `AP_L1_Control::loiter_radius`. -/
def loiter_radius (env : Env F) (cfg : Config F) (ahrs : AHRS Loc F) (tecs : Option (TECS F))
    (radius : F) : F :=
  let sanitized_bank_limit := constrain_float cfg._loiter_bank_limit 0 89
  let lateral_accel_sea_level := env.tanf (radians env sanitized_bank_limit) * env.GRAVITY_MSS
  let nominal_velocity_sea_level :=
    match tecs with
    | some t => t.target_airspeed
    | none => 0
  let eas2tas_sq := sq ahrs.EAS2TAS
  if env.is_zero sanitized_bank_limit || env.is_zero nominal_velocity_sea_level ||
      env.is_zero lateral_accel_sea_level then
    radius * eas2tas_sq
  else
    let sea_level_radius := sq nominal_velocity_sea_level / lateral_accel_sea_level
    if sea_level_radius > radius then
      radius * eas2tas_sq
    else
      MAX (sea_level_radius * eas2tas_sq) radius

/-! ## The anti-indecision guard and the four update methods -/

/-- Method `AP_L1_Control::_prevent_indecision`.  The method is not `const` and takes `Nu`
by reference: the result is the post-state together with the new value of `Nu`. -/
def _prevent_indecision (env : Env F) (ahrs : AHRS Loc F) (s : State F) (Nu : F) :
    State F × F :=
  let Nu_limit := 0.9 * env.M_PI
  if |Nu| > Nu_limit ∧
      |s._last_Nu| > Nu_limit ∧
      |wrap_180_cd (s._target_bearing_cd - get_yaw_sensor ahrs s)| > 12000 ∧
      Nu * s._last_Nu < 0 then
    (s, s._last_Nu)
  else
    (s, Nu)

/-- Method `AP_L1_Control::update_waypoint`. -/
def update_waypoint (env : Env F) (geo : Geo Loc F) (cfg : Config F) (ahrs : AHRS Loc F)
    (s : State F) (prev_WP next_WP : Loc) (dist_min : F) : State F :=
  let L_use := cfg._L_method
  -- Get current position and velocity
  match ahrs.location with
  | none =>
    -- if no GPS loc available, maintain last nav/target_bearing
    { s with _data_is_stale := true }
  | some _current_loc =>
    let gsv0 := ahrs.groundspeed_vector
    -- update _target_bearing_cd
    let s := { s with _target_bearing_cd := geo.get_bearing_to _current_loc next_WP }
    -- Calculate groundspeed
    let gs0 := gsv0.length env
    let groundSpeed := if gs0 < 0.1 then 0.1 else gs0
    let _groundspeed_vector :=
      if gs0 < 0.1 then
        (Vector2f.mk (env.cosf (get_yaw env ahrs s)) (env.sinf (get_yaw env ahrs s))).scale 0.1
      else gsv0
    -- Calculate the NE position of WP B relative to WP A
    let AB0 := geo.get_distance_NE prev_WP next_WP
    -- Check for AB zero length and track directly to the destination if too small
    let AB1 :=
      if AB0.length env < 1.0e-6 then
        let AB := geo.get_distance_NE _current_loc next_WP
        if AB.length env < 1.0e-6 then
          Vector2f.mk (env.cosf (get_yaw env ahrs s)) (env.sinf (get_yaw env ahrs s))
        else AB
      else AB0
    let AB := AB1.normalized env
    -- Calculate the NE position of the aircraft relative to WP A
    let A_air := geo.get_distance_NE prev_WP _current_loc
    -- calculate distance to target track, for reporting
    let s := { s with _crosstrack_error := A_air.cross AB }
    let s :=
      if L_use > 0 then
        { s with _L1_dist := MAX (0.3183099 * cfg._L1_damping * cfg._L1_period * groundSpeed) dist_min }
      else
        { s with _L1_dist := env.sqrtf (sq cfg._L_dist + sq s._crosstrack_error) }
    let WP_A_dist := A_air.length env
    let alongTrackDist := A_air.dot AB
    -- Calc Nu to fly along AB line; the pair is (Nu, _nav_bearing)
    let r : F × F :=
      if WP_A_dist > s._L1_dist ∧ alongTrackDist / MAX WP_A_dist 1.0 < -0.7071 then
        -- Aircraft behind first waypoint: calc Nu to fly to WP A
        let A_air_unit := A_air.normalized env
        let xtrackVel := _groundspeed_vector.cross A_air_unit.neg
        let ltrackVel := _groundspeed_vector.dot A_air_unit.neg
        (env.atan2f xtrackVel ltrackVel, env.atan2f (-A_air_unit.y) (-A_air_unit.x))
      else
        let xtrackVel := _groundspeed_vector.cross AB
        let ltrackVel := _groundspeed_vector.dot AB
        let Nu2 := env.atan2f xtrackVel ltrackVel
        let sine_Nu1 := s._crosstrack_error / MAX s._L1_dist 0.1
        -- Limit sine of Nu1 to provide a controlled track capture angle of 45 deg
        let sine_Nu1 := constrain_float sine_Nu1 (-0.7071) 0.7071
        let Nu1 := env.asinf sine_Nu1
        (Nu1 + Nu2, env.atan2f AB.y AB.x + Nu1)
    let s := { s with _nav_bearing := r.2 }
    let p := _prevent_indecision env ahrs s r.1
    let s := p.1
    let Nu := p.2
    let s := { s with _last_Nu := Nu }
    -- Limit Nu to +-(pi/2)
    let Nu := constrain_float Nu (-1.5708) 1.5708
    let s :=
      if L_use < 1 then
        let K_L1 := 4.0 * cfg._L1_damping * cfg._L1_damping
        { s with _latAccDem := K_L1 * groundSpeed * groundSpeed / s._L1_dist * env.sinf Nu }
      else
        { s with _latAccDem := 2.0 * groundSpeed * groundSpeed / s._L1_dist * env.sinf Nu }
    -- Waypoint capture status is always false during waypoint following
    let s := { s with _WPcircle := false }
    let s := { s with _bearing_error := Nu }
    { s with _data_is_stale := false }

/-- Method `AP_L1_Control::update_loiter`. -/
def update_loiter (env : Env F) (geo : Geo Loc F) (cfg : Config F) (ahrs : AHRS Loc F)
    (tecs : Option (TECS F)) (s : State F) (center_WP : Loc) (radius : F)
    (loiter_direction : Int) : State F :=
  -- scale loiter radius with square of EAS2TAS
  let radius := loiter_radius env cfg ahrs tecs |radius|
  -- Get current position and velocity
  match ahrs.location with
  | none =>
    -- if no GPS loc available, maintain last nav/target_bearing
    { s with _data_is_stale := true }
  | some _current_loc =>
    let _groundspeed_vector := ahrs.groundspeed_vector
    -- Calculate groundspeed
    let groundSpeed := MAX (_groundspeed_vector.length env) 1.0
    -- get relative position to waypoint in meters
    let _loiter_center_vector := geo.get_relative_pos _current_loc center_WP
    -- get current angular position in the circle of the closest point in the path
    let sigma_Q := env.atan2f _loiter_center_vector.y _loiter_center_vector.x
    let sigma_zero := 2 * env.asinf (cfg._L_dist / (2 * radius))
    let sigma_T := sigma_Q + sigma_zero * (loiter_direction : F)
    let T := (Vector2f.mk (env.cosf sigma_T) (env.sinf sigma_T)).scale radius
    let L1 := T.sub _loiter_center_vector
    let L1_unit := L1.normalized env
    let xtrackVel := _groundspeed_vector.cross L1_unit.neg
    let ltrackVel := _groundspeed_vector.dot L1_unit.neg
    let Nu := env.atan2f xtrackVel ltrackVel
    let p := _prevent_indecision env ahrs s Nu
    let s := p.1
    let Nu := p.2
    let s := { s with _last_Nu := Nu }
    -- Limit Nu to +- Pi/2
    let Nu := constrain_float Nu (-M_PI_2 env) (M_PI_2 env)
    let L1_distance := L1.length env
    -- Calculate lat accln demand to capture center_WP (use L1 guidance law)
    let s := { s with _latAccDem := 2.0 * groundSpeed * groundSpeed / L1_distance * env.sinf Nu }
    { s with _data_is_stale := false }

/-- Method `AP_L1_Control::update_heading_hold`. -/
def update_heading_hold (env : Env F) (cfg : Config F) (ahrs : AHRS Loc F) (s : State F)
    (navigation_heading_cd : Int) : State F :=
  -- Calculate normalised frequency for tracking loop
  let omegaA := 4.4428 / cfg._L1_period
  -- copy to _target_bearing_cd and _nav_bearing
  let s := { s with _target_bearing_cd := wrap_180_cd navigation_heading_cd }
  let s := { s with _nav_bearing := radians env ((navigation_heading_cd : F) * 0.01) }
  let Nu_cd := s._target_bearing_cd - wrap_180_cd ahrs.yaw_sensor
  let Nu_cd := wrap_180_cd Nu_cd
  let Nu := radians env ((Nu_cd : F) * 0.01)
  let _groundspeed_vector := ahrs.groundspeed_vector
  -- Calculate groundspeed
  let groundSpeed := _groundspeed_vector.length env
  -- L1 distance is adjusted to maintain a constant tracking loop frequency
  let s := { s with _L1_dist := groundSpeed / omegaA }
  let VomegaA := groundSpeed * omegaA
  -- Waypoint capture status is always false during heading hold
  let s := { s with _WPcircle := false }
  let s := { s with reached_loiter_target_ms := 0 }
  let s := { s with _crosstrack_error := 0 }
  let s := { s with _bearing_error := Nu }
  let Nu := constrain_float Nu (-M_PI_2 env) (M_PI_2 env)
  let s := { s with _latAccDem := 2.0 * env.sinf Nu * VomegaA }
  { s with _data_is_stale := false }

/-- Method `AP_L1_Control::update_level_flight`. -/
def update_level_flight (ahrs : AHRS Loc F) (s : State F) : State F :=
  -- copy to _target_bearing_cd and _nav_bearing
  let s := { s with _target_bearing_cd := ahrs.yaw_sensor }
  let s := { s with _nav_bearing := ahrs.yaw }
  let s := { s with _bearing_error := 0 }
  let s := { s with _crosstrack_error := 0 }
  -- Waypoint capture status is always false during heading hold
  let s := { s with _WPcircle := false }
  let s := { s with reached_loiter_target_ms := 0 }
  let s := { s with _latAccDem := 0 }
  { s with _data_is_stale := false }

/-! ## Local variables of the update methods

The values that `update_waypoint` and `update_loiter` hold in their local variables, as
functions of the inputs of the call.  The lemmas `update_waypoint_locals`,
`update_waypoint_last_Nu`, `update_loiter_latAccDem` and `update_loiter_last_Nu` below prove
that the methods store exactly these values. -/

/-- The local `groundSpeed` of `update_waypoint` after the floor at 0.1. -/
def wp_groundSpeed (env : Env F) (ahrs : AHRS Loc F) : F :=
  let groundSpeed := ahrs.groundspeed_vector.length env
  if groundSpeed < 0.1 then 0.1 else groundSpeed

/-- The local `AB` of `update_waypoint` after the checks for zero length and before
`AB.normalize()`. -/
def wp_AB_raw (env : Env F) (geo : Geo Loc F) (ahrs : AHRS Loc F) (s : State F)
    (prev_WP next_WP _current_loc : Loc) : Vector2f F :=
  let AB := geo.get_distance_NE prev_WP next_WP
  if AB.length env < 1.0e-6 then
    let AB := geo.get_distance_NE _current_loc next_WP
    if AB.length env < 1.0e-6 then
      Vector2f.mk (env.cosf (get_yaw env ahrs s)) (env.sinf (get_yaw env ahrs s))
    else AB
  else AB

/-- The local `AB` of `update_waypoint` after `AB.normalize()`. -/
def wp_AB (env : Env F) (geo : Geo Loc F) (ahrs : AHRS Loc F) (s : State F)
    (prev_WP next_WP _current_loc : Loc) : Vector2f F :=
  (wp_AB_raw env geo ahrs s prev_WP next_WP _current_loc).normalized env

/-- The value `A_air % AB` that `update_waypoint` stores in `_crosstrack_error`. -/
def wp_crosstrack_error (env : Env F) (geo : Geo Loc F) (ahrs : AHRS Loc F) (s : State F)
    (prev_WP next_WP _current_loc : Loc) : F :=
  (geo.get_distance_NE prev_WP _current_loc).cross
    (wp_AB env geo ahrs s prev_WP next_WP _current_loc)

/-- The value that `update_waypoint` stores in `_L1_dist`. -/
def wp_L1_dist (env : Env F) (geo : Geo Loc F) (cfg : Config F) (ahrs : AHRS Loc F)
    (s : State F) (prev_WP next_WP _current_loc : Loc) (dist_min : F) : F :=
  if cfg._L_method > 0 then
    MAX (0.3183099 * cfg._L1_damping * cfg._L1_period * wp_groundSpeed env ahrs) dist_min
  else
    env.sqrtf (sq cfg._L_dist + sq (wp_crosstrack_error env geo ahrs s prev_WP next_WP _current_loc))

/-- The condition of the branch of `update_waypoint` for an aircraft behind the first
waypoint. -/
def wp_behind (env : Env F) (geo : Geo Loc F) (cfg : Config F) (ahrs : AHRS Loc F)
    (s : State F) (prev_WP next_WP _current_loc : Loc) (dist_min : F) : Prop :=
  (geo.get_distance_NE prev_WP _current_loc).length env
      > wp_L1_dist env geo cfg ahrs s prev_WP next_WP _current_loc dist_min ∧
    (geo.get_distance_NE prev_WP _current_loc).dot
        (wp_AB env geo ahrs s prev_WP next_WP _current_loc)
      / MAX ((geo.get_distance_NE prev_WP _current_loc).length env) 1.0 < -0.7071

/-- The local `Nu1` of the normal branch of `update_waypoint`, for the stored crosstrack
error and look-ahead distance. -/
def wp_Nu1 (env : Env F) (_crosstrack_error _L1_dist : F) : F :=
  let sine_Nu1 := _crosstrack_error / MAX _L1_dist 0.1
  let sine_Nu1 := constrain_float sine_Nu1 (-0.7071) 0.7071
  env.asinf sine_Nu1

/-- The local `radius` of `update_loiter` after the scaling by `loiter_radius`. -/
def loiter_scaled_radius (env : Env F) (cfg : Config F) (ahrs : AHRS Loc F)
    (tecs : Option (TECS F)) (radius : F) : F :=
  loiter_radius env cfg ahrs tecs |radius|

/-- The local `T` of `update_loiter`, for the scaled radius `radius`, the upwind distance
`_L_dist` and the position `_loiter_center_vector` of the aircraft relative to the centre. -/
def loiter_T (env : Env F) (_L_dist radius : F) (_loiter_center_vector : Vector2f F)
    (loiter_direction : Int) : Vector2f F :=
  let sigma_Q := env.atan2f _loiter_center_vector.y _loiter_center_vector.x
  let sigma_zero := 2 * env.asinf (_L_dist / (2 * radius))
  let sigma_T := sigma_Q + sigma_zero * (loiter_direction : F)
  (Vector2f.mk (env.cosf sigma_T) (env.sinf sigma_T)).scale radius

/-- The local `L1` of `update_loiter`. -/
def loiter_L1 (env : Env F) (_L_dist radius : F) (_loiter_center_vector : Vector2f F)
    (loiter_direction : Int) : Vector2f F :=
  (loiter_T env _L_dist radius _loiter_center_vector loiter_direction).sub _loiter_center_vector

/-- The local `_groundspeed_vector` of `update_waypoint` after the substitution of the
heading vector at low ground speed. -/
def wp_groundspeed_vector (env : Env F) (ahrs : AHRS Loc F) (s : State F) : Vector2f F :=
  if ahrs.groundspeed_vector.length env < 0.1 then
    (Vector2f.mk (env.cosf (get_yaw env ahrs s)) (env.sinf (get_yaw env ahrs s))).scale 0.1
  else ahrs.groundspeed_vector

/-- The local `Nu` of `update_waypoint` at the call of `_prevent_indecision`: the turn error
before the guard and before the clamp. -/
def wp_Nu (env : Env F) (geo : Geo Loc F) (cfg : Config F) (ahrs : AHRS Loc F)
    (s : State F) (prev_WP next_WP _current_loc : Loc) (dist_min : F) : F :=
  let _groundspeed_vector := wp_groundspeed_vector env ahrs s
  let AB := wp_AB env geo ahrs s prev_WP next_WP _current_loc
  let A_air := geo.get_distance_NE prev_WP _current_loc
  let _L1_dist := wp_L1_dist env geo cfg ahrs s prev_WP next_WP _current_loc dist_min
  let WP_A_dist := A_air.length env
  let alongTrackDist := A_air.dot AB
  if WP_A_dist > _L1_dist ∧ alongTrackDist / MAX WP_A_dist 1.0 < -0.7071 then
    let A_air_unit := A_air.normalized env
    let xtrackVel := _groundspeed_vector.cross A_air_unit.neg
    let ltrackVel := _groundspeed_vector.dot A_air_unit.neg
    env.atan2f xtrackVel ltrackVel
  else
    let xtrackVel := _groundspeed_vector.cross AB
    let ltrackVel := _groundspeed_vector.dot AB
    let Nu2 := env.atan2f xtrackVel ltrackVel
    let Nu1 := wp_Nu1 env (wp_crosstrack_error env geo ahrs s prev_WP next_WP _current_loc)
      _L1_dist
    Nu1 + Nu2

/-- The local `Nu` of `update_loiter` at the call of `_prevent_indecision`, for the scaled
radius `radius`. -/
def loiter_Nu (env : Env F) (ahrs : AHRS Loc F) (_L_dist radius : F)
    (_loiter_center_vector : Vector2f F) (loiter_direction : Int) : F :=
  let L1 := loiter_L1 env _L_dist radius _loiter_center_vector loiter_direction
  let L1_unit := L1.normalized env
  let xtrackVel := ahrs.groundspeed_vector.cross L1_unit.neg
  let ltrackVel := ahrs.groundspeed_vector.dot L1_unit.neg
  env.atan2f xtrackVel ltrackVel

/-! ## Sequences of update calls -/

/-- One call of an update method by the outer control loop, with the parameter block and
the readings of the collaborators at that control tick. -/
inductive Call (Loc F : Type) where
  | waypoint (cfg : Config F) (ahrs : AHRS Loc F) (prev_WP next_WP : Loc) (dist_min : F)
  | loiter (cfg : Config F) (ahrs : AHRS Loc F) (tecs : Option (TECS F)) (center_WP : Loc)
      (radius : F) (loiter_direction : Int)
  | heading_hold (cfg : Config F) (ahrs : AHRS Loc F) (navigation_heading_cd : Int)
  | level_flight (ahrs : AHRS Loc F)

/-- The effect of one call on the state of the controller. -/
def step (env : Env F) (geo : Geo Loc F) (s : State F) : Call Loc F → State F
  | .waypoint cfg ahrs prev_WP next_WP dist_min =>
    update_waypoint env geo cfg ahrs s prev_WP next_WP dist_min
  | .loiter cfg ahrs tecs center_WP radius loiter_direction =>
    update_loiter env geo cfg ahrs tecs s center_WP radius loiter_direction
  | .heading_hold cfg ahrs navigation_heading_cd =>
    update_heading_hold env cfg ahrs s navigation_heading_cd
  | .level_flight ahrs => update_level_flight ahrs s

/-- The state after a finite sequence of calls, first call first. -/
def run (env : Env F) (geo : Geo Loc F) (s : State F) (calls : List (Call Loc F)) : State F :=
  calls.foldl (step env geo) s

end Model

/-! ## Concrete instances used to evaluate the model -/

section Samples

variable (F : Type) [LinearOrderedField F]

/-- The defaults of the parameter table `var_info`. -/
def defaultConfig : Config F where
  _L1_period := 17
  _L1_damping := 0.75
  _L1_xtrack_i_gain := 0.02
  _L_dist := 40
  _L_method := 1
  _loiter_bank_limit := 0

/-- The defaults with the loiter bank angle limit set to 45 degrees. -/
def bankLimitedConfig : Config F :=
  { defaultConfig F with _loiter_bank_limit := 45 }

/-- A controller state with every numeric member zero and every flag cleared. -/
def zeroState : State F where
  _L1_dist := 0
  _latAccDem := 0
  _bearing_error := 0
  _nav_bearing := 0
  _target_bearing_cd := 0
  _crosstrack_error := 0
  _last_Nu := 0
  _WPcircle := false
  _data_is_stale := false
  _reverse := false
  reached_loiter_target_ms := 0

/-- A state whose look-ahead distance is one metre. -/
def unitLookaheadState : State F :=
  { zeroState F with _L1_dist := 1 }

/-- Navigation readings without a position fix: level, yaw zero, at rest. -/
def ahrsNoFix : AHRS (Vector2f F) F where
  yaw := 0
  yaw_sensor := 0
  pitch := 0
  EAS2TAS := 1
  location := none
  groundspeed_vector := ⟨0, 0⟩

/-- Navigation readings with a position fix at the origin: level, yaw zero, at rest. -/
def ahrsAtRest : AHRS (Vector2f F) F where
  yaw := 0
  yaw_sensor := 0
  pitch := 0
  EAS2TAS := 1
  location := some ⟨0, 0⟩
  groundspeed_vector := ⟨0, 0⟩

/-- Navigation readings with a position fix at the origin and a ground velocity of 1 m/s
due South. -/
def ahrsSouthbound : AHRS (Vector2f F) F where
  yaw := 0
  yaw_sensor := 0
  pitch := 0
  EAS2TAS := 1
  location := some ⟨0, 0⟩
  groundspeed_vector := ⟨-1, 0⟩

/-- A state with the reverse flag set. -/
def reversedState : State F :=
  { zeroState F with _reverse := true }

/-- A state that reports a crosstrack error of 5 metres. -/
def offTrackState : State F :=
  { zeroState F with _crosstrack_error := 5 }

/-- Modelled from the spec: a flat-earth `Location`, a point given by its North and East
coordinates in metres; `get_distance_NE` and `get_relative_pos` are differences of
coordinates and `get_bearing_to` is the direction of the difference in centidegrees. -/
def planarGeo [FloorRing F] (env : Env F) : Geo (Vector2f F) F where
  get_bearing_to := fun a b =>
    toInt32 (RadiansToCentiDegrees env (env.atan2f (b.y - a.y) (b.x - a.x)))
  get_distance_NE := fun a b => b.sub a
  get_relative_pos := fun a b => a.sub b

end Samples

/-- The C math library with its mathematical meaning over the real numbers; `is_zero` is
the test for zero and `GRAVITY_MSS` is standard gravity. -/
noncomputable def realEnv : Env ℝ where
  M_PI := Real.pi
  GRAVITY_MSS := 9.80665
  sinf := Real.sin
  cosf := Real.cos
  tanf := Real.tan
  asinf := Real.arcsin
  atanf := Real.arctan
  atan2f := fun y x => Complex.arg ⟨x, y⟩
  sqrtf := Real.sqrt
  is_zero := fun x => decide (x = 0)

/-- Navigation readings of the scenario: position 50 m South of the origin, heading East
with a ground velocity of 10 m/s due East. -/
noncomputable def ahrsScenario : AHRS (Vector2f ℝ) ℝ where
  yaw := Real.pi / 2
  yaw_sensor := 9000
  pitch := 0
  EAS2TAS := 1
  location := some ⟨-50, 0⟩
  groundspeed_vector := ⟨0, 10⟩

/-- A state whose previous turn error is `0.99 π` and whose target bearing is 150 degrees. -/
noncomputable def indecisionState : State ℝ :=
  { zeroState ℝ with _last_Nu := 0.99 * Real.pi, _target_bearing_cd := 15000 }

/-- Navigation readings of the first of two passes: on the origin, ground velocity of 1 m/s
at 178.2 degrees to the left of North. -/
noncomputable def ahrsFirstPass : AHRS (Vector2f ℝ) ℝ where
  yaw := -(0.99 * Real.pi)
  yaw_sensor := -17820
  pitch := 0
  EAS2TAS := 1
  location := some ⟨0, 0⟩
  groundspeed_vector := ⟨Real.cos (0.99 * Real.pi), -Real.sin (0.99 * Real.pi)⟩

/-- Navigation readings of the second of two passes: on the origin, ground velocity of
1 m/s at 178.2 degrees to the right of North. -/
noncomputable def ahrsSecondPass : AHRS (Vector2f ℝ) ℝ where
  yaw := 0.99 * Real.pi
  yaw_sensor := 17820
  pitch := 0
  EAS2TAS := 1
  location := some ⟨0, 0⟩
  groundspeed_vector := ⟨Real.cos (0.99 * Real.pi), Real.sin (0.99 * Real.pi)⟩


section Properties

variable {F : Type} [LinearOrderedField F] {Loc : Type}

/-- The relation between a pre-state `s` and a post-state `t` of a call that only raised
the stale flag: every member other than the flag, and hence every accessor, is unchanged. -/
def FrozenStale [FloorRing F] (Loc : Type) (env : Env F) (s t : State F) : Prop :=
  t = { s with _data_is_stale := true } ∧
  t._data_is_stale = true ∧
  t._latAccDem = s._latAccDem ∧ t._L1_dist = s._L1_dist ∧
  t._bearing_error = s._bearing_error ∧ t._nav_bearing = s._nav_bearing ∧
  t._target_bearing_cd = s._target_bearing_cd ∧
  t._crosstrack_error = s._crosstrack_error ∧ t._last_Nu = s._last_Nu ∧
  t._WPcircle = s._WPcircle ∧
  lateral_acceleration t = lateral_acceleration s ∧
  (∀ ahrs : AHRS Loc F, nav_roll_cd env ahrs t = nav_roll_cd env ahrs s) ∧
  nav_bearing_cd env t = nav_bearing_cd env s ∧
  bearing_error_cd env t = bearing_error_cd env s ∧
  target_bearing_cd t = target_bearing_cd s ∧
  crosstrack_error t = crosstrack_error s ∧
  reached_loiter_target t = reached_loiter_target s

/-! ## Helper lemmas -/

theorem constrain_float_mem (amt low high : F) (h : low ≤ high) :
    low ≤ constrain_float amt low high ∧ constrain_float amt low high ≤ high := by
  unfold constrain_float
  split_ifs with h1 h2
  · exact ⟨le_refl _, h⟩
  · exact ⟨h, le_refl _⟩
  · exact ⟨not_lt.mp h1, not_lt.mp h2⟩

theorem toInt32_mem [FloorRing F] (x : F) (n : Int) (hn : 0 ≤ n) (hlo : -(n : F) ≤ x)
    (hhi : x ≤ (n : F)) : -n ≤ toInt32 x ∧ toInt32 x ≤ n := by
  unfold toInt32
  split_ifs with h0
  · have h1 : (0 : Int) ≤ ⌊x⌋ := Int.floor_nonneg.mpr h0
    have h2 : ⌊x⌋ ≤ n := Int.floor_le_iff.mpr (lt_of_le_of_lt hhi (by simp))
    exact ⟨by omega, h2⟩
  · have h1 : ⌈x⌉ ≤ 0 := Int.ceil_le.mpr (by simpa using le_of_lt (not_le.mp h0))
    have h2 : -n ≤ ⌈x⌉ := by
      have h3 : ((-n : Int) : F) ≤ x := by push_cast; exact hlo
      exact Int.cast_le.mp (le_trans h3 (Int.le_ceil x))
    exact ⟨h2, by omega⟩

theorem frozenStale_of_eq [FloorRing F] (env : Env F) (s t : State F)
    (h : t = { s with _data_is_stale := true }) : FrozenStale Loc env s t := by
  subst h
  refine ⟨rfl, rfl, rfl, rfl, rfl, rfl, rfl, rfl, rfl, rfl, rfl, ?_, rfl, rfl, rfl, rfl, rfl⟩
  intro ahrs
  rfl

theorem MAX_eq_max (a b : F) : MAX a b = max a b := by
  unfold MAX
  split_ifs with h
  · exact (max_eq_left (le_of_lt h)).symm
  · exact (max_eq_right (not_lt.mp h)).symm

theorem MIN_eq_min (a b : F) : MIN a b = min a b := by
  unfold MIN
  split_ifs with h
  · exact (min_eq_left (le_of_lt h)).symm
  · exact (min_eq_right (not_lt.mp h)).symm

theorem prevent_indecision_fst (env : Env F) (ahrs : AHRS Loc F) (s : State F) (Nu : F) :
    (_prevent_indecision env ahrs s Nu).1 = s := by
  simp only [_prevent_indecision]
  split_ifs <;> rfl

/-- The look-ahead distance stored by a call of `update_waypoint` that obtains a position:
the ground speed that enters it is floored at 0.1. -/
theorem update_waypoint_L1_dist [FloorRing F] (env : Env F) (geo : Geo Loc F) (cfg : Config F)
    (ahrs : AHRS Loc F) (s : State F) (prev_WP next_WP loc : Loc) (dist_min : F)
    (hloc : ahrs.location = some loc) :
    ∃ groundSpeed xtrack : F, 0.1 ≤ groundSpeed ∧
      (update_waypoint env geo cfg ahrs s prev_WP next_WP dist_min)._L1_dist =
        if cfg._L_method > 0 then
          MAX (0.3183099 * cfg._L1_damping * cfg._L1_period * groundSpeed) dist_min
        else env.sqrtf (sq cfg._L_dist + sq xtrack) := by
  have hgs : (0.1 : F) ≤ if Vector2f.length env ahrs.groundspeed_vector < 0.1 then 0.1
      else Vector2f.length env ahrs.groundspeed_vector := by
    split_ifs with h
    · exact le_refl _
    · exact not_lt.mp h
  by_cases hL : cfg._L_method > 0 <;> by_cases h1 : cfg._L_method < 1
  · simp only [update_waypoint, hloc, hL, h1, if_true, prevent_indecision_fst]
    exact ⟨_, 0, hgs, rfl⟩
  · simp only [update_waypoint, hloc, hL, h1, if_true, if_false, prevent_indecision_fst]
    exact ⟨_, 0, hgs, rfl⟩
  · simp only [update_waypoint, hloc, hL, h1, if_true, if_false, prevent_indecision_fst]
    exact ⟨_, _, hgs, rfl⟩
  · simp only [update_waypoint, hloc, hL, h1, if_false, prevent_indecision_fst]
    exact ⟨_, _, hgs, rfl⟩

/-- The bearing error stored by a call of `update_waypoint` that obtains a position is the
stored `_last_Nu` clamped to ±1.5708. -/
theorem update_waypoint_bearing_error [FloorRing F] (env : Env F) (geo : Geo Loc F)
    (cfg : Config F) (ahrs : AHRS Loc F) (s : State F) (prev_WP next_WP loc : Loc)
    (dist_min : F) (hloc : ahrs.location = some loc) :
    (update_waypoint env geo cfg ahrs s prev_WP next_WP dist_min)._bearing_error =
      constrain_float (update_waypoint env geo cfg ahrs s prev_WP next_WP dist_min)._last_Nu
        (-1.5708) 1.5708 := by
  by_cases h1 : cfg._L_method < 1
  · simp only [update_waypoint, hloc, h1, if_true]
  · simp only [update_waypoint, hloc, h1, if_false]

/-- The look-ahead distance is a member that `update_loiter` never writes. -/
theorem update_loiter_L1_dist [FloorRing F] (env : Env F) (geo : Geo Loc F) (cfg : Config F)
    (ahrs : AHRS Loc F) (tecs : Option (TECS F)) (s : State F) (center_WP : Loc) (radius : F)
    (loiter_direction : Int) :
    (update_loiter env geo cfg ahrs tecs s center_WP radius loiter_direction)._L1_dist
      = s._L1_dist := by
  unfold update_loiter
  cases ahrs.location with
  | none => rfl
  | some loc => simp only [prevent_indecision_fst]

/-- Positivity of the look-ahead distance stored by a call of `update_waypoint` that obtains
a position, for a square root that is positive on positive arguments. -/
theorem update_waypoint_L1_dist_pos [FloorRing F] (env : Env F) (geo : Geo Loc F)
    (cfg : Config F) (ahrs : AHRS Loc F) (s : State F) (prev_WP next_WP loc : Loc)
    (dist_min : F)
    (hsqrt : ∀ x : F, 0 < x → 0 < env.sqrtf x)
    (hloc : ahrs.location = some loc)
    (hperiod : 1 ≤ cfg._L1_period ∧ cfg._L1_period ≤ 60)
    (hdamping : 0.6 ≤ cfg._L1_damping ∧ cfg._L1_damping ≤ 1.0)
    (hdist : 1 ≤ cfg._L_dist ∧ cfg._L_dist ≤ 90) :
    0 < (update_waypoint env geo cfg ahrs s prev_WP next_WP dist_min)._L1_dist := by
  obtain ⟨gs, xt, hgs, heq⟩ := update_waypoint_L1_dist env geo cfg ahrs s prev_WP next_WP loc
    dist_min hloc
  rw [heq]
  split_ifs with hL
  · rw [MAX_eq_max]
    apply lt_max_of_lt_left
    have hd : (0 : F) < cfg._L1_damping := lt_of_lt_of_le (by norm_num) hdamping.1
    have hp : (0 : F) < cfg._L1_period := lt_of_lt_of_le (by norm_num) hperiod.1
    have hg : (0 : F) < gs := lt_of_lt_of_le (by norm_num) hgs
    positivity
  · apply hsqrt
    have h1 : (0 : F) < sq cfg._L_dist := by
      unfold sq
      nlinarith [hdist.1]
    have h2 : (0 : F) ≤ sq xt := by
      unfold sq
      exact mul_self_nonneg xt
    linarith

/-! ## The stored values in terms of the local variables -/

/-- The members written by a call of `update_waypoint` that obtains a position, in terms of
the local variables of the method. -/
theorem update_waypoint_locals [FloorRing F] (env : Env F) (geo : Geo Loc F) (cfg : Config F)
    (ahrs : AHRS Loc F) (s : State F) (prev_WP next_WP loc : Loc) (dist_min : F)
    (hloc : ahrs.location = some loc) :
    (update_waypoint env geo cfg ahrs s prev_WP next_WP dist_min)._crosstrack_error
      = wp_crosstrack_error env geo ahrs s prev_WP next_WP loc ∧
    (update_waypoint env geo cfg ahrs s prev_WP next_WP dist_min)._L1_dist
      = wp_L1_dist env geo cfg ahrs s prev_WP next_WP loc dist_min ∧
    (wp_behind env geo cfg ahrs s prev_WP next_WP loc dist_min →
      (update_waypoint env geo cfg ahrs s prev_WP next_WP dist_min)._nav_bearing
        = env.atan2f (-((geo.get_distance_NE prev_WP loc).normalized env).y)
            (-((geo.get_distance_NE prev_WP loc).normalized env).x)) ∧
    (¬ wp_behind env geo cfg ahrs s prev_WP next_WP loc dist_min →
      (update_waypoint env geo cfg ahrs s prev_WP next_WP dist_min)._nav_bearing
        = env.atan2f (wp_AB env geo ahrs s prev_WP next_WP loc).y
            (wp_AB env geo ahrs s prev_WP next_WP loc).x
          + wp_Nu1 env (wp_crosstrack_error env geo ahrs s prev_WP next_WP loc)
              (wp_L1_dist env geo cfg ahrs s prev_WP next_WP loc dist_min)) := by
  by_cases hL : cfg._L_method > 0 <;> by_cases h1 : cfg._L_method < 1
  all_goals
    refine ⟨?_, ?_, ?_, ?_⟩
    · simp only [update_waypoint, hloc, hL, h1, if_true, if_false, prevent_indecision_fst,
        wp_crosstrack_error, wp_AB, wp_AB_raw, get_yaw]
    · simp only [update_waypoint, hloc, hL, h1, if_true, if_false, prevent_indecision_fst,
        wp_L1_dist, wp_groundSpeed, wp_crosstrack_error, wp_AB, wp_AB_raw, get_yaw]
    · intro hb
      have hb2 := hb
      simp only [wp_behind, wp_L1_dist, wp_groundSpeed, wp_crosstrack_error, wp_AB, wp_AB_raw,
        get_yaw, hL, if_true, if_false] at hb2
      simp only [update_waypoint, hloc, hL, h1, if_true, if_false, prevent_indecision_fst,
        get_yaw, hb2, and_self]
    · intro hb
      have hb2 := hb
      simp only [wp_behind, wp_L1_dist, wp_groundSpeed, wp_crosstrack_error, wp_AB, wp_AB_raw,
        get_yaw, hL, if_true, if_false] at hb2
      simp only [update_waypoint, hloc, hL, h1, if_true, if_false, prevent_indecision_fst,
        get_yaw, hb2, wp_Nu1, wp_L1_dist, wp_groundSpeed, wp_crosstrack_error, wp_AB,
        wp_AB_raw]

/-- The lateral acceleration demand written by a call of `update_loiter` that obtains a
position, in terms of the local `L1` of the method. -/
theorem update_loiter_latAccDem [FloorRing F] (env : Env F) (geo : Geo Loc F) (cfg : Config F)
    (ahrs : AHRS Loc F) (tecs : Option (TECS F)) (s : State F) (center_WP loc : Loc)
    (radius : F) (loiter_direction : Int) (hloc : ahrs.location = some loc) :
    (update_loiter env geo cfg ahrs tecs s center_WP radius loiter_direction)._latAccDem
      = 2.0 * MAX (ahrs.groundspeed_vector.length env) 1.0
          * MAX (ahrs.groundspeed_vector.length env) 1.0
          / (loiter_L1 env cfg._L_dist (loiter_scaled_radius env cfg ahrs tecs radius)
              (geo.get_relative_pos loc center_WP) loiter_direction).length env
          * env.sinf (constrain_float
              (update_loiter env geo cfg ahrs tecs s center_WP radius loiter_direction)._last_Nu
              (-M_PI_2 env) (M_PI_2 env)) := by
  simp only [update_loiter, hloc, prevent_indecision_fst, loiter_L1, loiter_T,
    loiter_scaled_radius]

/-- The crosstrack error is a member that `update_loiter` never writes. -/
theorem update_loiter_crosstrack_error [FloorRing F] (env : Env F) (geo : Geo Loc F)
    (cfg : Config F) (ahrs : AHRS Loc F) (tecs : Option (TECS F)) (s : State F)
    (center_WP : Loc) (radius : F) (loiter_direction : Int) :
    (update_loiter env geo cfg ahrs tecs s center_WP radius loiter_direction)._crosstrack_error
      = s._crosstrack_error := by
  unfold update_loiter
  cases ahrs.location with
  | none => rfl
  | some loc => simp only [prevent_indecision_fst]

/-- The circling flag is a member that `update_loiter` never writes. -/
theorem update_loiter_WPcircle [FloorRing F] (env : Env F) (geo : Geo Loc F)
    (cfg : Config F) (ahrs : AHRS Loc F) (tecs : Option (TECS F)) (s : State F)
    (center_WP : Loc) (radius : F) (loiter_direction : Int) :
    (update_loiter env geo cfg ahrs tecs s center_WP radius loiter_direction)._WPcircle
      = s._WPcircle := by
  unfold update_loiter
  cases ahrs.location with
  | none => rfl
  | some loc => simp only [prevent_indecision_fst]

/-- A call of `update_waypoint` leaves a cleared circling flag cleared. -/
theorem update_waypoint_WPcircle [FloorRing F] (env : Env F) (geo : Geo Loc F)
    (cfg : Config F) (ahrs : AHRS Loc F) (s : State F) (prev_WP next_WP : Loc) (dist_min : F)
    (h : s._WPcircle = false) :
    (update_waypoint env geo cfg ahrs s prev_WP next_WP dist_min)._WPcircle = false := by
  cases hloc : ahrs.location with
  | none =>
    simp only [update_waypoint, hloc]
    exact h
  | some loc =>
    by_cases h1 : cfg._L_method < 1
    · simp only [update_waypoint, hloc, h1, if_true]
    · simp only [update_waypoint, hloc, h1, if_false]

/-- One call of an update method leaves a cleared circling flag cleared. -/
theorem step_WPcircle [FloorRing F] (env : Env F) (geo : Geo Loc F) (s : State F)
    (c : Call Loc F) (h : s._WPcircle = false) : (step env geo s c)._WPcircle = false := by
  cases c with
  | waypoint cfg ahrs prev_WP next_WP dist_min =>
    exact update_waypoint_WPcircle env geo cfg ahrs s prev_WP next_WP dist_min h
  | loiter cfg ahrs tecs center_WP radius loiter_direction =>
    show (update_loiter env geo cfg ahrs tecs s center_WP radius loiter_direction)._WPcircle
      = false
    rw [update_loiter_WPcircle]
    exact h
  | heading_hold cfg ahrs navigation_heading_cd => rfl
  | level_flight ahrs => rfl

/-- The result of `_prevent_indecision` depends on the state only through `_last_Nu`,
`_target_bearing_cd` and the reverse flag. -/
theorem prevent_indecision_snd_congr (env : Env F) (ahrs : AHRS Loc F) (s t : State F) (Nu : F)
    (h1 : s._last_Nu = t._last_Nu) (h2 : s._target_bearing_cd = t._target_bearing_cd)
    (h3 : s._reverse = t._reverse) :
    (_prevent_indecision env ahrs s Nu).2 = (_prevent_indecision env ahrs t Nu).2 := by
  simp only [_prevent_indecision, get_yaw_sensor, h1, h2, h3]
  split_ifs <;> rfl

/-- The guard `_prevent_indecision` leaves `Nu` unchanged when the previous turn error is at
most `0.9 π` in magnitude. -/
theorem prevent_indecision_snd_of_last_le (env : Env F) (ahrs : AHRS Loc F) (s : State F)
    (Nu : F) (h : |s._last_Nu| ≤ 0.9 * env.M_PI) : (_prevent_indecision env ahrs s Nu).2 = Nu := by
  simp only [_prevent_indecision]
  rw [if_neg]
  intro hc
  exact absurd hc.2.1 (not_lt.mpr h)

/-- The turn error that a call of `update_waypoint` that obtains a position records in
`_last_Nu`: the result of `_prevent_indecision` on the local `Nu`, with the `_last_Nu` of
the state before the call and the target bearing of this call. -/
theorem update_waypoint_last_Nu [FloorRing F] (env : Env F) (geo : Geo Loc F) (cfg : Config F)
    (ahrs : AHRS Loc F) (s : State F) (prev_WP next_WP loc : Loc) (dist_min : F)
    (hloc : ahrs.location = some loc) :
    (update_waypoint env geo cfg ahrs s prev_WP next_WP dist_min)._last_Nu
      = (_prevent_indecision env ahrs
          { s with _target_bearing_cd := geo.get_bearing_to loc next_WP }
          (wp_Nu env geo cfg ahrs s prev_WP next_WP loc dist_min)).2 := by
  by_cases hL : cfg._L_method > 0 <;> by_cases h1 : cfg._L_method < 1 <;>
    by_cases hb : wp_behind env geo cfg ahrs s prev_WP next_WP loc dist_min
  all_goals
    have hb2 := hb
    simp only [wp_behind, wp_L1_dist, wp_groundSpeed, wp_crosstrack_error, wp_AB, wp_AB_raw,
      get_yaw, hL, if_true, if_false] at hb2
    simp only [update_waypoint, hloc, hL, h1, if_true, if_false, prevent_indecision_fst,
      get_yaw, hb2, and_self, wp_Nu, wp_Nu1, wp_groundspeed_vector, wp_L1_dist, wp_groundSpeed,
      wp_crosstrack_error, wp_AB, wp_AB_raw]
    exact prevent_indecision_snd_congr env ahrs _ _ _ rfl rfl rfl

/-- The reverse flag is a member that `update_waypoint` never writes. -/
theorem update_waypoint_reverse [FloorRing F] (env : Env F) (geo : Geo Loc F)
    (cfg : Config F) (ahrs : AHRS Loc F) (s : State F) (prev_WP next_WP : Loc) (dist_min : F) :
    (update_waypoint env geo cfg ahrs s prev_WP next_WP dist_min)._reverse = s._reverse := by
  cases hloc : ahrs.location with
  | none => simp only [update_waypoint, hloc]
  | some loc =>
    by_cases hL : cfg._L_method > 0 <;> by_cases h1 : cfg._L_method < 1
    all_goals
      simp only [update_waypoint, hloc, hL, h1, if_true, if_false, prevent_indecision_fst]

/-- The turn error that a call of `update_loiter` that obtains a position records in
`_last_Nu`: the result of `_prevent_indecision` on the local `Nu`, in the state before the
call. -/
theorem update_loiter_last_Nu [FloorRing F] (env : Env F) (geo : Geo Loc F) (cfg : Config F)
    (ahrs : AHRS Loc F) (tecs : Option (TECS F)) (s : State F) (center_WP loc : Loc)
    (radius : F) (loiter_direction : Int) (hloc : ahrs.location = some loc) :
    (update_loiter env geo cfg ahrs tecs s center_WP radius loiter_direction)._last_Nu
      = (_prevent_indecision env ahrs s
          (loiter_Nu env ahrs cfg._L_dist (loiter_scaled_radius env cfg ahrs tecs radius)
            (geo.get_relative_pos loc center_WP) loiter_direction)).2 := by
  simp only [update_loiter, hloc, prevent_indecision_fst, loiter_Nu, loiter_L1, loiter_T,
    loiter_scaled_radius]

/-! ## Real vectors -/

/-- Over the reals a vector of positive length has a normalised vector of length 1. -/
theorem length_normalized_real (v : Vector2f ℝ) (h : 0 < Vector2f.length realEnv v) :
    Vector2f.length realEnv (Vector2f.normalized realEnv v) = 1 := by
  have hl : Vector2f.length realEnv v = Real.sqrt (v.x * v.x + v.y * v.y) := rfl
  have hnn : 0 ≤ v.x * v.x + v.y * v.y := add_nonneg (mul_self_nonneg _) (mul_self_nonneg _)
  have hsq : Vector2f.length realEnv v * Vector2f.length realEnv v = v.x * v.x + v.y * v.y := by
    rw [hl]
    exact Real.mul_self_sqrt hnn
  have hne : Vector2f.length realEnv v ≠ 0 := ne_of_gt h
  show Real.sqrt (v.x / Vector2f.length realEnv v * (v.x / Vector2f.length realEnv v)
    + v.y / Vector2f.length realEnv v * (v.y / Vector2f.length realEnv v)) = 1
  have h1 : v.x / Vector2f.length realEnv v * (v.x / Vector2f.length realEnv v)
      + v.y / Vector2f.length realEnv v * (v.y / Vector2f.length realEnv v) = 1 := by
    field_simp
    linarith [hsq]
  rw [h1, Real.sqrt_one]

/-- Over the reals the heading vector `(cos t, sin t)` has length 1. -/
theorem length_cos_sin_real (t : ℝ) :
    Vector2f.length realEnv ⟨Real.cos t, Real.sin t⟩ = 1 := by
  show Real.sqrt (Real.cos t * Real.cos t + Real.sin t * Real.sin t) = 1
  have h : Real.cos t * Real.cos t + Real.sin t * Real.sin t = 1 := by
    have := Real.cos_sq_add_sin_sq t
    nlinarith
  rw [h, Real.sqrt_one]

/-- Over the reals the heading vector `(cos t, sin t)` is its own normalised vector. -/
theorem normalized_cos_sin_real (t : ℝ) :
    Vector2f.normalized realEnv ⟨Real.cos t, Real.sin t⟩ = ⟨Real.cos t, Real.sin t⟩ := by
  unfold Vector2f.normalized
  rw [length_cos_sin_real]
  simp

/-- Over the reals the arc sine of a value clamped to ±0.7071 is at most π/4 in magnitude. -/
theorem abs_arcsin_clamped_le (x : ℝ) :
    |Real.arcsin (constrain_float x (-0.7071) 0.7071)| ≤ Real.pi / 4 := by
  obtain ⟨hlo, hhi⟩ := constrain_float_mem x (-0.7071 : ℝ) 0.7071 (by norm_num)
  have hs : (0.7071 : ℝ) ≤ Real.sin (Real.pi / 4) := by
    rw [Real.sin_pi_div_four]
    have h2 : (1.4142 : ℝ) ≤ Real.sqrt 2 := by
      apply Real.le_sqrt_of_sq_le
      norm_num
    linarith
  have hpi := Real.pi_pos
  have hup : Real.arcsin (constrain_float x (-0.7071) 0.7071) ≤ Real.pi / 4 := by
    rw [Real.arcsin_le_iff_le_sin ⟨by linarith, by linarith⟩ ⟨by linarith, by linarith⟩]
    linarith
  have hdn : -(Real.pi / 4) ≤ Real.arcsin (constrain_float x (-0.7071) 0.7071) := by
    rw [Real.le_arcsin_iff_sin_le ⟨by linarith, by linarith⟩ ⟨by linarith, by linarith⟩,
      Real.sin_neg]
    linarith
  exact abs_le.mpr ⟨hdn, hup⟩

theorem prevent_indecision_snd_of_le (env : Env F) (ahrs : AHRS Loc F) (s : State F) (Nu : F)
    (h : |Nu| ≤ 0.9 * env.M_PI) : (_prevent_indecision env ahrs s Nu).2 = Nu := by
  simp only [_prevent_indecision]
  rw [if_neg]
  intro hc
  exact absurd hc.1 (not_lt.mpr h)

theorem constrain_float_of_mem (amt low high : F) (h1 : low ≤ amt) (h2 : amt ≤ high) :
    constrain_float amt low high = amt := by
  unfold constrain_float
  rw [if_neg (not_lt.mpr h1), if_neg (not_lt.mpr h2)]

/-- Over the reals the sum of squares of the differences of `(cos, sin)` at two angles. -/
theorem chord_sq_real (σ θ : ℝ) :
    (Real.cos (σ + θ) - Real.cos σ) * (Real.cos (σ + θ) - Real.cos σ)
      + (Real.sin (σ + θ) - Real.sin σ) * (Real.sin (σ + θ) - Real.sin σ)
      = 2 - 2 * Real.cos θ := by
  have h1 := Real.cos_sq_add_sin_sq σ
  have h2 := Real.cos_sq_add_sin_sq θ
  rw [Real.cos_add, Real.sin_add]
  linear_combination
    (Real.cos θ ^ 2 + Real.sin θ ^ 2 + 1 - 2 * Real.cos θ) * h1 + h2

/-- Over the reals the cosine of twice the arc sine of `x`, in either direction. -/
theorem cos_two_arcsin_real (x : ℝ) (hx : 0 ≤ x ∧ x ≤ 1) (dir : Int)
    (hdir : dir = 1 ∨ dir = -1) :
    Real.cos (2 * Real.arcsin x * (dir : ℝ)) = 1 - 2 * (x * x) := by
  have hs : Real.sin (Real.arcsin x) = x := Real.sin_arcsin (by linarith [hx.1]) hx.2
  have hc : Real.cos (2 * Real.arcsin x) = 1 - 2 * (x * x) := by
    rw [Real.cos_two_mul]
    have h := Real.cos_sq_add_sin_sq (Real.arcsin x)
    rw [hs] at h
    nlinarith
  rcases hdir with h | h
  · rw [h]
    push_cast
    rw [mul_one]
    exact hc
  · rw [h]
    push_cast
    rw [mul_neg, mul_one, Real.cos_neg]
    exact hc

/-! ## Two passes of a reversed track -/

/-- Over the reals the angle of the point `(cos θ, sin θ)` is `θ`, for `θ` in `(-π, π]`. -/
theorem arg_cos_sin_real (θ : ℝ) (h1 : -Real.pi < θ) (h2 : θ ≤ Real.pi) :
    Complex.arg ⟨Real.cos θ, Real.sin θ⟩ = θ := by
  have key := Complex.arg_cos_add_sin_mul_I (θ := θ) ⟨h1, h2⟩
  have h : (⟨Real.cos θ, Real.sin θ⟩ : ℂ)
      = Complex.cos (θ : ℂ) + Complex.sin (θ : ℂ) * Complex.I := by
    apply Complex.ext <;>
      simp [Complex.cos_ofReal_re, Complex.sin_ofReal_re, Complex.cos_ofReal_im,
        Complex.sin_ofReal_im]
  rw [h]
  exact key

/-- The turn error before the guard in the first of the two passes is `0.99 π`. -/
theorem two_pass_first_Nu :
    wp_Nu realEnv (planarGeo ℝ realEnv) (defaultConfig ℝ) ahrsFirstPass (zeroState ℝ)
      ⟨0, 0⟩ ⟨1, 0⟩ ⟨0, 0⟩ 0 = 0.99 * Real.pi := by
  have hpi := Real.pi_pos
  have harg : Complex.arg ⟨Real.cos (0.99 * Real.pi), Real.sin (0.99 * Real.pi)⟩
      = 0.99 * Real.pi := arg_cos_sin_real _ (by linarith) (by linarith)
  have hlen : Real.sqrt (Real.cos (0.99 * Real.pi) * Real.cos (0.99 * Real.pi)
      + Real.sin (0.99 * Real.pi) * Real.sin (0.99 * Real.pi)) = 1 := by
    have h : Real.cos (0.99 * Real.pi) * Real.cos (0.99 * Real.pi)
        + Real.sin (0.99 * Real.pi) * Real.sin (0.99 * Real.pi) = 1 := by
      have := Real.cos_sq_add_sin_sq (0.99 * Real.pi)
      nlinarith
    rw [h, Real.sqrt_one]
  norm_num at harg hlen
  norm_num [wp_Nu, wp_Nu1, wp_groundspeed_vector, wp_L1_dist, wp_groundSpeed,
    wp_crosstrack_error, wp_AB, wp_AB_raw, planarGeo, defaultConfig, ahrsFirstPass, realEnv,
    Vector2f.length, Vector2f.sub, Vector2f.normalized, Vector2f.cross, Vector2f.dot, sq,
    MAX, constrain_float, harg, hlen]

/-- The first of the two passes records the turn error `0.99 π`. -/
theorem two_pass_first_last_Nu :
    (update_waypoint realEnv (planarGeo ℝ realEnv) (defaultConfig ℝ) ahrsFirstPass (zeroState ℝ)
      ⟨0, 0⟩ ⟨1, 0⟩ 0)._last_Nu = 0.99 * Real.pi := by
  rw [update_waypoint_last_Nu realEnv (planarGeo ℝ realEnv) (defaultConfig ℝ) ahrsFirstPass
    (zeroState ℝ) ⟨0, 0⟩ ⟨1, 0⟩ ⟨0, 0⟩ 0 rfl, two_pass_first_Nu]
  apply prevent_indecision_snd_of_last_le
  show |(0 : ℝ)| ≤ 0.9 * Real.pi
  rw [abs_zero]
  have := Real.pi_pos
  positivity

/-- The turn error before the guard in the second of the two passes is `-0.99 π`, whatever
the state before the call. -/
theorem two_pass_second_Nu (s : State ℝ) :
    wp_Nu realEnv (planarGeo ℝ realEnv) (defaultConfig ℝ) ahrsSecondPass s
      ⟨0, 0⟩ ⟨1, 0⟩ ⟨0, 0⟩ 0 = -(0.99 * Real.pi) := by
  have hpi := Real.pi_pos
  have harg : Complex.arg ⟨Real.cos (0.99 * Real.pi), -Real.sin (0.99 * Real.pi)⟩
      = -(0.99 * Real.pi) := by
    have h := arg_cos_sin_real (-(0.99 * Real.pi)) (by linarith) (by linarith)
    rw [Real.cos_neg, Real.sin_neg] at h
    exact h
  have hlen : Real.sqrt (Real.cos (0.99 * Real.pi) * Real.cos (0.99 * Real.pi)
      + Real.sin (0.99 * Real.pi) * Real.sin (0.99 * Real.pi)) = 1 := by
    have h : Real.cos (0.99 * Real.pi) * Real.cos (0.99 * Real.pi)
        + Real.sin (0.99 * Real.pi) * Real.sin (0.99 * Real.pi) = 1 := by
      have := Real.cos_sq_add_sin_sq (0.99 * Real.pi)
      nlinarith
    rw [h, Real.sqrt_one]
  norm_num at harg hlen
  norm_num [wp_Nu, wp_Nu1, wp_groundspeed_vector, wp_L1_dist, wp_groundSpeed,
    wp_crosstrack_error, wp_AB, wp_AB_raw, planarGeo, defaultConfig, ahrsSecondPass, realEnv,
    Vector2f.length, Vector2f.sub, Vector2f.normalized, Vector2f.cross, Vector2f.dot, sq,
    MAX, constrain_float, harg, hlen]

/-- In the second of the two passes the target bearing is 178.2 degrees away from the yaw,
for every state with the reverse flag unset. -/
theorem two_pass_bearing (s : State ℝ) (h : s._reverse = false) :
    |wrap_180_cd ((planarGeo ℝ realEnv).get_bearing_to ⟨0, 0⟩ ⟨1, 0⟩
      - get_yaw_sensor ahrsSecondPass s)| > 12000 := by
  have harg1 : Complex.arg ⟨1, 0⟩ = 0 := by
    have h : (⟨1, 0⟩ : ℂ) = 1 := by
      apply Complex.ext <;> simp
    rw [h, Complex.arg_one]
  have hb : (planarGeo ℝ realEnv).get_bearing_to ⟨0, 0⟩ ⟨1, 0⟩ = 0 := by
    simp [planarGeo, RadiansToCentiDegrees, realEnv, toInt32, harg1]
  have hy : get_yaw_sensor ahrsSecondPass s = 17820 := by
    simp [get_yaw_sensor, h, ahrsSecondPass]
  rw [hb, hy]
  decide

/-! ## Claims -/

/-- C1: when the navigation source supplies no position, `update_waypoint` and
`update_loiter` set the stale flag and leave every other member unchanged, so every
accessor returns its value from before the call. -/
theorem stale_on_position_loss [FloorRing F] (env : Env F) (geo : Geo Loc F) (cfg : Config F)
    (ahrs : AHRS Loc F) (tecs : Option (TECS F)) (s : State F)
    (prev_WP next_WP center_WP : Loc) (dist_min radius : F) (loiter_direction : Int)
    (hloc : ahrs.location = none) :
    FrozenStale Loc env s (update_waypoint env geo cfg ahrs s prev_WP next_WP dist_min) ∧
    FrozenStale Loc env s
      (update_loiter env geo cfg ahrs tecs s center_WP radius loiter_direction) := by
  constructor
  · apply frozenStale_of_eq
    simp only [update_waypoint, hloc]
  · apply frozenStale_of_eq
    simp only [update_loiter, hloc]

/-- Witness of C1: a call without a position fix on the default configuration. -/
theorem stale_on_position_loss_witness :
    (ahrsNoFix ℝ).location = none ∧
    FrozenStale (Vector2f ℝ) realEnv (zeroState ℝ)
      (update_waypoint realEnv (planarGeo ℝ realEnv) (defaultConfig ℝ) (ahrsNoFix ℝ) (zeroState ℝ)
        ⟨0, 0⟩ ⟨1000, 0⟩ 0) ∧
    FrozenStale (Vector2f ℝ) realEnv (zeroState ℝ)
      (update_loiter realEnv (planarGeo ℝ realEnv) (defaultConfig ℝ) (ahrsNoFix ℝ) none (zeroState ℝ)
        ⟨0, 0⟩ 60 1) :=
  ⟨rfl, stale_on_position_loss realEnv (planarGeo ℝ realEnv) (defaultConfig ℝ) (ahrsNoFix ℝ) none
    (zeroState ℝ) ⟨0, 0⟩ ⟨1000, 0⟩ ⟨0, 0⟩ 0 60 1 rfl⟩

/-- C2: for every stored lateral-acceleration demand and every pitch reading the commanded
bank angle `nav_roll_cd` lies between -9000 and 9000 centidegrees. -/
theorem nav_roll_cd_bounded [FloorRing F] (env : Env F) (ahrs : AHRS Loc F) (s : State F) :
    -9000 ≤ nav_roll_cd env ahrs s ∧ nav_roll_cd env ahrs s ≤ 9000 := by
  unfold nav_roll_cd
  simp only
  have h := constrain_float_mem
    (degrees env (env.atanf (s._latAccDem * (1 / (env.GRAVITY_MSS * env.cosf
      (constrain_float ahrs.pitch (-radians env 60) (radians env 60)))))) * 100)
    (-9000 : F) 9000 (by norm_num)
  exact toInt32_mem _ 9000 (by norm_num) (by simpa using h.1) (by simpa using h.2)

/-- C3: `_prevent_indecision` returns the previous turn error `_last_Nu` when all four
conditions hold (`|Nu| > 0.9π`, `|_last_Nu| > 0.9π`, the wrapped difference between
target bearing and yaw exceeds 12000 centidegrees in magnitude, and `Nu * _last_Nu < 0`),
returns `Nu` unchanged otherwise, and never modifies the state; with `_last_Nu = 0.99π`,
`Nu = -0.99π` and a bearing difference above 120 degrees the result is `0.99π`.  At the call
sites, `update_waypoint` and `update_loiter` record in `_last_Nu` the result of the guard on
their local turn error, with the `_last_Nu` left by the previous call, and `update_waypoint`
stores the clamp of that result as bearing error; so when a call of `update_waypoint` has
recorded `0.99π` and the next call computes `-0.99π` with a bearing difference above 120
degrees, the next call records `0.99π` again. -/
theorem prevent_indecision_spec [FloorRing F] (env : Env F) (geo : Geo Loc F)
    (ahrs : AHRS Loc F) (s : State F) (Nu : F) :
    ((|Nu| > 0.9 * env.M_PI ∧ |s._last_Nu| > 0.9 * env.M_PI ∧
        |wrap_180_cd (s._target_bearing_cd - get_yaw_sensor ahrs s)| > 12000 ∧
        Nu * s._last_Nu < 0) →
      (_prevent_indecision env ahrs s Nu).2 = s._last_Nu) ∧
    (¬ (|Nu| > 0.9 * env.M_PI ∧ |s._last_Nu| > 0.9 * env.M_PI ∧
        |wrap_180_cd (s._target_bearing_cd - get_yaw_sensor ahrs s)| > 12000 ∧
        Nu * s._last_Nu < 0) →
      (_prevent_indecision env ahrs s Nu).2 = Nu) ∧
    (_prevent_indecision env ahrs s Nu).1 = s ∧
    (0 < env.M_PI → s._last_Nu = 0.99 * env.M_PI →
      |wrap_180_cd (s._target_bearing_cd - get_yaw_sensor ahrs s)| > 12000 →
      (_prevent_indecision env ahrs s (-(0.99 * env.M_PI))).2 = 0.99 * env.M_PI) ∧
    (∀ (cfg : Config F) (prev_WP next_WP loc : Loc) (dist_min : F),
      ahrs.location = some loc →
      (update_waypoint env geo cfg ahrs s prev_WP next_WP dist_min)._last_Nu
        = (_prevent_indecision env ahrs
            { s with _target_bearing_cd := geo.get_bearing_to loc next_WP }
            (wp_Nu env geo cfg ahrs s prev_WP next_WP loc dist_min)).2 ∧
      (update_waypoint env geo cfg ahrs s prev_WP next_WP dist_min)._bearing_error
        = constrain_float
            (update_waypoint env geo cfg ahrs s prev_WP next_WP dist_min)._last_Nu
            (-1.5708) 1.5708) ∧
    (∀ (cfg : Config F) (tecs : Option (TECS F)) (center_WP loc : Loc) (radius : F)
      (loiter_direction : Int), ahrs.location = some loc →
      (update_loiter env geo cfg ahrs tecs s center_WP radius loiter_direction)._last_Nu
        = (_prevent_indecision env ahrs s
            (loiter_Nu env ahrs cfg._L_dist (loiter_scaled_radius env cfg ahrs tecs radius)
              (geo.get_relative_pos loc center_WP) loiter_direction)).2) ∧
    (∀ (cfg0 : Config F) (ahrs0 : AHRS Loc F) (s0 : State F) (prev0 next0 : Loc) (dist0 : F)
      (cfg : Config F) (prev_WP next_WP loc : Loc) (dist_min : F),
      0 < env.M_PI → ahrs.location = some loc →
      (update_waypoint env geo cfg0 ahrs0 s0 prev0 next0 dist0)._last_Nu = 0.99 * env.M_PI →
      wp_Nu env geo cfg ahrs (update_waypoint env geo cfg0 ahrs0 s0 prev0 next0 dist0)
        prev_WP next_WP loc dist_min = -(0.99 * env.M_PI) →
      |wrap_180_cd (geo.get_bearing_to loc next_WP
        - get_yaw_sensor ahrs (update_waypoint env geo cfg0 ahrs0 s0 prev0 next0 dist0))|
        > 12000 →
      (update_waypoint env geo cfg ahrs
        (update_waypoint env geo cfg0 ahrs0 s0 prev0 next0 dist0)
        prev_WP next_WP dist_min)._last_Nu = 0.99 * env.M_PI ∧
      (update_waypoint env geo cfg ahrs
        (update_waypoint env geo cfg0 ahrs0 s0 prev0 next0 dist0)
        prev_WP next_WP dist_min)._bearing_error
        = constrain_float (0.99 * env.M_PI) (-1.5708) 1.5708) := by
  have taken : ∀ (t : State F) (x : F), (|x| > 0.9 * env.M_PI ∧ |t._last_Nu| > 0.9 * env.M_PI ∧
      |wrap_180_cd (t._target_bearing_cd - get_yaw_sensor ahrs t)| > 12000 ∧
      x * t._last_Nu < 0) → (_prevent_indecision env ahrs t x).2 = t._last_Nu := by
    intro t x h
    simp only [_prevent_indecision, h, and_self, if_true]
  have reversal : ∀ t : State F, 0 < env.M_PI → t._last_Nu = 0.99 * env.M_PI →
      |wrap_180_cd (t._target_bearing_cd - get_yaw_sensor ahrs t)| > 12000 →
      (_prevent_indecision env ahrs t (-(0.99 * env.M_PI))).2 = 0.99 * env.M_PI := by
    intro t hpi hlast hdiff
    have h1 : |(-(0.99 * env.M_PI))| > 0.9 * env.M_PI := by
      rw [abs_neg, abs_of_pos (by positivity)]
      nlinarith
    have h2 : |t._last_Nu| > 0.9 * env.M_PI := by
      rw [hlast, abs_of_pos (by positivity)]
      nlinarith
    have h3 : -(0.99 * env.M_PI) * t._last_Nu < 0 := by
      rw [hlast]
      nlinarith [mul_pos hpi hpi]
    rw [taken t _ ⟨h1, h2, hdiff, h3⟩, hlast]
  refine ⟨taken s Nu, ?_, ?_, reversal s, ?_, ?_, ?_⟩
  · intro h
    simp only [_prevent_indecision, h, if_false]
  · simp only [_prevent_indecision]
    split_ifs <;> rfl
  · intro cfg prev_WP next_WP loc dist_min hloc
    exact ⟨update_waypoint_last_Nu env geo cfg ahrs s prev_WP next_WP loc dist_min hloc,
      update_waypoint_bearing_error env geo cfg ahrs s prev_WP next_WP loc dist_min hloc⟩
  · intro cfg tecs center_WP loc radius loiter_direction hloc
    exact update_loiter_last_Nu env geo cfg ahrs tecs s center_WP loc radius loiter_direction
      hloc
  · intro cfg0 ahrs0 s0 prev0 next0 dist0 cfg prev_WP next_WP loc dist_min hpi hloc hfirst
      hNu hdiff
    have hlast : (update_waypoint env geo cfg ahrs
        (update_waypoint env geo cfg0 ahrs0 s0 prev0 next0 dist0)
        prev_WP next_WP dist_min)._last_Nu = 0.99 * env.M_PI := by
      rw [update_waypoint_last_Nu env geo cfg ahrs _ prev_WP next_WP loc dist_min hloc, hNu]
      exact reversal _ hpi hfirst hdiff
    refine ⟨hlast, ?_⟩
    rw [update_waypoint_bearing_error env geo cfg ahrs _ prev_WP next_WP loc dist_min hloc,
      hlast]

/-- Witness of C3: at the guard, previous turn error `0.99 π`, new turn error `-0.99 π`
and target bearing 150 degrees away from the yaw; at the call site, two passes of
`update_waypoint` on the leg from (0,0) to (1,0) with ground velocities 178.2 degrees to
the left and then to the right of the leg. -/
theorem prevent_indecision_spec_witness :
    0 < realEnv.M_PI ∧ indecisionState._last_Nu = 0.99 * realEnv.M_PI ∧
    |wrap_180_cd (indecisionState._target_bearing_cd -
      get_yaw_sensor (ahrsNoFix ℝ) indecisionState)| > 12000 ∧
    (_prevent_indecision realEnv (ahrsNoFix ℝ) indecisionState (-(0.99 * realEnv.M_PI))).2
      = 0.99 * realEnv.M_PI ∧
    ahrsSecondPass.location = some ⟨0, 0⟩ ∧
    (update_waypoint realEnv (planarGeo ℝ realEnv) (defaultConfig ℝ) ahrsFirstPass (zeroState ℝ)
      ⟨0, 0⟩ ⟨1, 0⟩ 0)._last_Nu = 0.99 * realEnv.M_PI ∧
    wp_Nu realEnv (planarGeo ℝ realEnv) (defaultConfig ℝ) ahrsSecondPass
      (update_waypoint realEnv (planarGeo ℝ realEnv) (defaultConfig ℝ) ahrsFirstPass
        (zeroState ℝ) ⟨0, 0⟩ ⟨1, 0⟩ 0)
      ⟨0, 0⟩ ⟨1, 0⟩ ⟨0, 0⟩ 0 = -(0.99 * realEnv.M_PI) ∧
    |wrap_180_cd ((planarGeo ℝ realEnv).get_bearing_to ⟨0, 0⟩ ⟨1, 0⟩
      - get_yaw_sensor ahrsSecondPass
          (update_waypoint realEnv (planarGeo ℝ realEnv) (defaultConfig ℝ) ahrsFirstPass
            (zeroState ℝ) ⟨0, 0⟩ ⟨1, 0⟩ 0))| > 12000 ∧
    (update_waypoint realEnv (planarGeo ℝ realEnv) (defaultConfig ℝ) ahrsSecondPass
      (update_waypoint realEnv (planarGeo ℝ realEnv) (defaultConfig ℝ) ahrsFirstPass
        (zeroState ℝ) ⟨0, 0⟩ ⟨1, 0⟩ 0)
      ⟨0, 0⟩ ⟨1, 0⟩ 0)._last_Nu = 0.99 * realEnv.M_PI :=
  have hrev : (update_waypoint realEnv (planarGeo ℝ realEnv) (defaultConfig ℝ) ahrsFirstPass
      (zeroState ℝ) ⟨0, 0⟩ ⟨1, 0⟩ 0)._reverse = false := by
    rw [update_waypoint_reverse]
    rfl
  ⟨Real.pi_pos, rfl, by decide,
    (prevent_indecision_spec realEnv (planarGeo ℝ realEnv) (ahrsNoFix ℝ) indecisionState
      (-(0.99 * realEnv.M_PI))).2.2.2.1 Real.pi_pos rfl (by decide),
    rfl, two_pass_first_last_Nu, two_pass_second_Nu _, two_pass_bearing _ hrev,
    ((prevent_indecision_spec realEnv (planarGeo ℝ realEnv) ahrsSecondPass (zeroState ℝ)
      0).2.2.2.2.2.2 (defaultConfig ℝ) ahrsFirstPass (zeroState ℝ) ⟨0, 0⟩ ⟨1, 0⟩ 0
      (defaultConfig ℝ) ⟨0, 0⟩ ⟨1, 0⟩ ⟨0, 0⟩ 0 Real.pi_pos rfl two_pass_first_last_Nu
      (two_pass_second_Nu _) (two_pass_bearing _ hrev)).1⟩

/-- C4: after a call of `update_waypoint` that obtains a position, with period in [1,60],
damping in [0.6,1.0] and upwind distance in [1,90], for either guidance method, every
minimum distance, every ground velocity and every pair of waypoints, the stored look-ahead
distance is strictly positive (the square root is positive on positive arguments). -/
theorem update_waypoint_lookahead_pos [FloorRing F] (env : Env F) (geo : Geo Loc F)
    (cfg : Config F) (ahrs : AHRS Loc F) (s : State F) (prev_WP next_WP loc : Loc)
    (dist_min : F)
    (hsqrt : ∀ x : F, 0 < x → 0 < env.sqrtf x)
    (hloc : ahrs.location = some loc)
    (hperiod : 1 ≤ cfg._L1_period ∧ cfg._L1_period ≤ 60)
    (hdamping : 0.6 ≤ cfg._L1_damping ∧ cfg._L1_damping ≤ 1.0)
    (hdist : 1 ≤ cfg._L_dist ∧ cfg._L_dist ≤ 90) :
    0 < (update_waypoint env geo cfg ahrs s prev_WP next_WP dist_min)._L1_dist :=
  update_waypoint_L1_dist_pos env geo cfg ahrs s prev_WP next_WP loc dist_min hsqrt hloc
    hperiod hdamping hdist

/-- Witness of C4: the default configuration, at rest on the previous waypoint. -/
theorem update_waypoint_lookahead_pos_witness :
    (∀ x : ℝ, 0 < x → 0 < realEnv.sqrtf x) ∧ (ahrsAtRest ℝ).location = some ⟨0, 0⟩ ∧
    (1 ≤ (defaultConfig ℝ)._L1_period ∧ (defaultConfig ℝ)._L1_period ≤ 60) ∧
    (0.6 ≤ (defaultConfig ℝ)._L1_damping ∧
      (defaultConfig ℝ)._L1_damping ≤ 1.0) ∧
    (1 ≤ (defaultConfig ℝ)._L_dist ∧ (defaultConfig ℝ)._L_dist ≤ 90) ∧
    0 < (update_waypoint realEnv (planarGeo ℝ realEnv) (defaultConfig ℝ) (ahrsAtRest ℝ) (zeroState ℝ)
      ⟨0, 0⟩ ⟨1000, 0⟩ 0)._L1_dist :=
  have hsqrt : ∀ x : ℝ, 0 < x → 0 < realEnv.sqrtf x := fun _ hx => Real.sqrt_pos.mpr hx
  have hp : 1 ≤ (defaultConfig ℝ)._L1_period ∧
      (defaultConfig ℝ)._L1_period ≤ 60 := by
    norm_num [defaultConfig]
  have hd : 0.6 ≤ (defaultConfig ℝ)._L1_damping ∧
      (defaultConfig ℝ)._L1_damping ≤ 1.0 := by
    norm_num [defaultConfig]
  have hl : 1 ≤ (defaultConfig ℝ)._L_dist ∧ (defaultConfig ℝ)._L_dist ≤ 90 := by
    norm_num [defaultConfig]
  ⟨hsqrt, rfl, hp, hd, hl,
    update_waypoint_lookahead_pos realEnv (planarGeo ℝ realEnv) (defaultConfig ℝ) (ahrsAtRest ℝ) (zeroState ℝ)
      ⟨0, 0⟩ ⟨1000, 0⟩ ⟨0, 0⟩ 0 hsqrt rfl hp hd hl⟩

/-- C5 as stated fails: from a state with look-ahead distance 1, on the default
configuration, `update_heading_hold` at zero ground speed stores look-ahead distance 0. -/
theorem heading_hold_lookahead_not_pos :
    0 < (unitLookaheadState ℝ)._L1_dist ∧
    (1 ≤ (defaultConfig ℝ)._L1_period ∧ (defaultConfig ℝ)._L1_period ≤ 60) ∧
    (0.6 ≤ (defaultConfig ℝ)._L1_damping ∧ (defaultConfig ℝ)._L1_damping ≤ 1.0) ∧
    (1 ≤ (defaultConfig ℝ)._L_dist ∧ (defaultConfig ℝ)._L_dist ≤ 90) ∧
    (ahrsAtRest ℝ).groundspeed_vector = ⟨0, 0⟩ ∧
    (update_heading_hold realEnv (defaultConfig ℝ) (ahrsAtRest ℝ)
      (unitLookaheadState ℝ) 0)._L1_dist = 0 ∧
    ¬ 0 < (update_heading_hold realEnv (defaultConfig ℝ) (ahrsAtRest ℝ)
      (unitLookaheadState ℝ) 0)._L1_dist := by
  have h0 : (update_heading_hold realEnv (defaultConfig ℝ) (ahrsAtRest ℝ)
      (unitLookaheadState ℝ) 0)._L1_dist = 0 := by
    simp [update_heading_hold, Vector2f.length, sq, realEnv, ahrsAtRest]
  refine ⟨?_, ?_, ?_, ?_, rfl, h0, ?_⟩
  · norm_num [unitLookaheadState, zeroState]
  · norm_num [defaultConfig]
  · norm_num [defaultConfig]
  · norm_num [defaultConfig]
  · rw [h0]
    exact lt_irrefl 0

/-- C5 amended: from a state with positive look-ahead distance and with the configuration
in its documented ranges, `update_waypoint`, `update_loiter` and `update_level_flight`
leave the stored look-ahead distance strictly positive; `update_heading_hold` stores the
ground speed divided by `4.4428 / period`, which is strictly positive exactly when the
ground speed is. -/
theorem lookahead_pos_invariant [FloorRing F] (env : Env F) (geo : Geo Loc F)
    (cfg : Config F) (ahrs : AHRS Loc F) (tecs : Option (TECS F)) (s : State F)
    (prev_WP next_WP center_WP : Loc) (dist_min radius : F) (loiter_direction : Int)
    (navigation_heading_cd : Int)
    (hsqrt : ∀ x : F, 0 < x → 0 < env.sqrtf x)
    (hpos : 0 < s._L1_dist)
    (hperiod : 1 ≤ cfg._L1_period ∧ cfg._L1_period ≤ 60)
    (hdamping : 0.6 ≤ cfg._L1_damping ∧ cfg._L1_damping ≤ 1.0)
    (hdist : 1 ≤ cfg._L_dist ∧ cfg._L_dist ≤ 90) :
    0 < (update_waypoint env geo cfg ahrs s prev_WP next_WP dist_min)._L1_dist ∧
    0 < (update_loiter env geo cfg ahrs tecs s center_WP radius loiter_direction)._L1_dist ∧
    0 < (update_level_flight ahrs s)._L1_dist ∧
    (update_heading_hold env cfg ahrs s navigation_heading_cd)._L1_dist
      = Vector2f.length env ahrs.groundspeed_vector / (4.4428 / cfg._L1_period) ∧
    (0 < (update_heading_hold env cfg ahrs s navigation_heading_cd)._L1_dist ↔
      0 < Vector2f.length env ahrs.groundspeed_vector) := by
  have hp : (0 : F) < cfg._L1_period := lt_of_lt_of_le (by norm_num) hperiod.1
  have homega : (0 : F) < 4.4428 / cfg._L1_period := by positivity
  refine ⟨?_, ?_, hpos, rfl, ?_⟩
  · cases hloc : ahrs.location with
    | none =>
      simp only [update_waypoint, hloc]
      exact hpos
    | some loc =>
      exact update_waypoint_L1_dist_pos env geo cfg ahrs s prev_WP next_WP loc dist_min
        hsqrt hloc hperiod hdamping hdist
  · rw [update_loiter_L1_dist]
    exact hpos
  · show 0 < Vector2f.length env ahrs.groundspeed_vector / (4.4428 / cfg._L1_period) ↔ _
    constructor
    · intro h
      by_contra hn
      have := div_nonpos_of_nonpos_of_nonneg (not_lt.mp hn) (le_of_lt homega)
      linarith
    · intro h
      exact div_pos h homega

/-- Witness of the amended C5: on the hypotheses of the invariant, a state with look-ahead distance 1, the
default configuration and the aircraft at rest. -/
theorem lookahead_pos_invariant_witness :
    (∀ x : ℝ, 0 < x → 0 < realEnv.sqrtf x) ∧ 0 < (unitLookaheadState ℝ)._L1_dist ∧
    (1 ≤ (defaultConfig ℝ)._L1_period ∧ (defaultConfig ℝ)._L1_period ≤ 60) ∧
    (0.6 ≤ (defaultConfig ℝ)._L1_damping ∧ (defaultConfig ℝ)._L1_damping ≤ 1.0) ∧
    (1 ≤ (defaultConfig ℝ)._L_dist ∧ (defaultConfig ℝ)._L_dist ≤ 90) ∧
    0 < (update_waypoint realEnv (planarGeo ℝ realEnv) (defaultConfig ℝ) (ahrsAtRest ℝ)
      (unitLookaheadState ℝ) ⟨0, 0⟩ ⟨1000, 0⟩ 0)._L1_dist ∧
    0 < (update_loiter realEnv (planarGeo ℝ realEnv) (defaultConfig ℝ) (ahrsAtRest ℝ) none
      (unitLookaheadState ℝ) ⟨0, 0⟩ 60 1)._L1_dist ∧
    0 < (update_level_flight (ahrsAtRest ℝ) (unitLookaheadState ℝ))._L1_dist ∧
    (update_heading_hold realEnv (defaultConfig ℝ) (ahrsAtRest ℝ) (unitLookaheadState ℝ) 0)._L1_dist
      = Vector2f.length realEnv (ahrsAtRest ℝ).groundspeed_vector /
        (4.4428 / (defaultConfig ℝ)._L1_period) ∧
    (0 < (update_heading_hold realEnv (defaultConfig ℝ) (ahrsAtRest ℝ)
        (unitLookaheadState ℝ) 0)._L1_dist ↔
      0 < Vector2f.length realEnv (ahrsAtRest ℝ).groundspeed_vector) :=
  have hsqrt : ∀ x : ℝ, 0 < x → 0 < realEnv.sqrtf x := fun _ hx => Real.sqrt_pos.mpr hx
  have hpos : 0 < (unitLookaheadState ℝ)._L1_dist := by
    norm_num [unitLookaheadState]
  have hp : 1 ≤ (defaultConfig ℝ)._L1_period ∧ (defaultConfig ℝ)._L1_period ≤ 60 := by
    norm_num [defaultConfig]
  have hd : 0.6 ≤ (defaultConfig ℝ)._L1_damping ∧ (defaultConfig ℝ)._L1_damping ≤ 1.0 := by
    norm_num [defaultConfig]
  have hl : 1 ≤ (defaultConfig ℝ)._L_dist ∧ (defaultConfig ℝ)._L_dist ≤ 90 := by
    norm_num [defaultConfig]
  ⟨hsqrt, hpos, hp, hd, hl,
    lookahead_pos_invariant realEnv (planarGeo ℝ realEnv) (defaultConfig ℝ) (ahrsAtRest ℝ) none
      (unitLookaheadState ℝ) ⟨0, 0⟩ ⟨1000, 0⟩ ⟨0, 0⟩ 0 60 1 0 hsqrt hpos hp hd hl⟩

/-- Lemma: after a call of `update_waypoint` that obtains a position the stored bearing
error lies between -1.5708 and 1.5708. -/
theorem update_waypoint_bearing_error_clamped [FloorRing F] (env : Env F) (geo : Geo Loc F)
    (cfg : Config F) (ahrs : AHRS Loc F) (s : State F) (prev_WP next_WP loc : Loc)
    (dist_min : F) (hloc : ahrs.location = some loc) :
    -1.5708 ≤ (update_waypoint env geo cfg ahrs s prev_WP next_WP dist_min)._bearing_error ∧
    (update_waypoint env geo cfg ahrs s prev_WP next_WP dist_min)._bearing_error ≤ 1.5708 := by
  rw [update_waypoint_bearing_error env geo cfg ahrs s prev_WP next_WP loc dist_min hloc]
  exact constrain_float_mem _ _ _ (by norm_num)

/-- C6 fails on the code: with the leg from (0,0) to (1,0), the aircraft on the previous
waypoint and a ground velocity of 1 m/s pointing back along the leg, the turn error is π
before the clamp and `update_waypoint` stores the bearing error 1.5708, the bound of its
clamp, which is larger than π/2. -/
theorem update_waypoint_bearing_error_exceeds_half_pi :
    (ahrsSouthbound ℝ).location = some ⟨0, 0⟩ ∧
    (update_waypoint realEnv (planarGeo ℝ realEnv) (defaultConfig ℝ) (ahrsSouthbound ℝ)
      (zeroState ℝ) ⟨0, 0⟩ ⟨1, 0⟩ 0)._last_Nu = Real.pi ∧
    (update_waypoint realEnv (planarGeo ℝ realEnv) (defaultConfig ℝ) (ahrsSouthbound ℝ)
      (zeroState ℝ) ⟨0, 0⟩ ⟨1, 0⟩ 0)._bearing_error = 1.5708 ∧
    Real.pi / 2 < (update_waypoint realEnv (planarGeo ℝ realEnv) (defaultConfig ℝ)
      (ahrsSouthbound ℝ) (zeroState ℝ) ⟨0, 0⟩ ⟨1, 0⟩ 0)._bearing_error := by
  have hpi : (3927 / 2500 : ℝ) < Real.pi := by
    linarith [Real.pi_gt_three]
  have hpi2 : Real.pi / 2 < 1.5708 := by
    have := Real.pi_lt_d6
    norm_num at this ⊢
    linarith
  have harg : Complex.arg ⟨-1, 0⟩ = Real.pi := by
    have h : (⟨-1, 0⟩ : ℂ) = -1 := by
      apply Complex.ext <;> simp
    rw [h, Complex.arg_neg_one]
  have hlast : (update_waypoint realEnv (planarGeo ℝ realEnv) (defaultConfig ℝ)
      (ahrsSouthbound ℝ) (zeroState ℝ) ⟨0, 0⟩ ⟨1, 0⟩ 0)._last_Nu = Real.pi := by
    norm_num [update_waypoint, planarGeo, defaultConfig, ahrsSouthbound, zeroState, realEnv,
      Vector2f.length, Vector2f.sub, Vector2f.normalized, Vector2f.cross, Vector2f.dot, sq,
      MAX, _prevent_indecision, constrain_float, harg]
  have hbe : (update_waypoint realEnv (planarGeo ℝ realEnv) (defaultConfig ℝ)
      (ahrsSouthbound ℝ) (zeroState ℝ) ⟨0, 0⟩ ⟨1, 0⟩ 0)._bearing_error = 1.5708 := by
    rw [update_waypoint_bearing_error realEnv (planarGeo ℝ realEnv) (defaultConfig ℝ)
      (ahrsSouthbound ℝ) (zeroState ℝ) ⟨0, 0⟩ ⟨1, 0⟩ ⟨0, 0⟩ 0 rfl, hlast]
    unfold constrain_float
    rw [if_neg (by linarith [Real.pi_pos]), if_pos (by norm_num; linarith)]
  refine ⟨rfl, hlast, hbe, ?_⟩
  rw [hbe]
  exact hpi2

/-- C7: `turn_distance(r)` is the lesser of `r * EAS2TAS²` and the look-ahead distance, so
it never exceeds the look-ahead distance; `turn_distance(r, a)` is
`turn_distance(r) * min(|a|, 90) / 90`; hence the values at 90, 0 and 45 degrees, the
symmetry in the sign of the angle and, for `r ≥ 0` and a look-ahead distance `≥ 0`, the
bounds `0 ≤ turn_distance(r, a) ≤ turn_distance(r)`. -/
theorem turn_distance_spec (ahrs : AHRS Loc F) (s : State F) (r a : F) :
    turn_distance ahrs s r = min (r * ahrs.EAS2TAS ^ 2) s._L1_dist ∧
    turn_distance ahrs s r ≤ s._L1_dist ∧
    turn_distance_angle ahrs s r a = turn_distance ahrs s r * min |a| 90 / 90 ∧
    turn_distance_angle ahrs s r 90 = turn_distance ahrs s r ∧
    turn_distance_angle ahrs s r 0 = 0 ∧
    turn_distance_angle ahrs s r 45 = 0.5 * turn_distance ahrs s r ∧
    turn_distance_angle ahrs s r (-a) = turn_distance_angle ahrs s r a ∧
    (0 ≤ r → 0 ≤ s._L1_dist →
      0 ≤ turn_distance_angle ahrs s r a ∧
      turn_distance_angle ahrs s r a ≤ turn_distance ahrs s r) := by
  have h90 : turn_distance ahrs s r = min (r * ahrs.EAS2TAS ^ 2) s._L1_dist := by
    simp only [turn_distance, MIN_eq_min, sq, pow_two]
  have hangle : ∀ b : F, turn_distance_angle ahrs s r b
      = turn_distance ahrs s r * min |b| 90 / 90 := by
    intro b
    simp only [turn_distance_angle]
    split_ifs with h
    · rw [min_eq_right h]
      field_simp
    · rw [min_eq_left (le_of_lt (not_le.mp h))]
  refine ⟨h90, ?_, hangle a, ?_, ?_, ?_, ?_, ?_⟩
  · rw [h90]
    exact min_le_right _ _
  · rw [hangle, abs_of_pos (by norm_num), min_self]
    field_simp
  · rw [hangle, abs_zero, min_eq_left (by norm_num)]
    simp
  · rw [hangle, abs_of_pos (by norm_num), min_eq_left (by norm_num)]
    ring
  · rw [hangle, hangle, abs_neg]
  · intro hr hL
    have hd : 0 ≤ turn_distance ahrs s r := by
      rw [h90]
      exact le_min (mul_nonneg hr (sq_nonneg _)) hL
    have hm0 : (0 : F) ≤ min |a| 90 := le_min (abs_nonneg a) (by norm_num)
    have hm1 : min |a| 90 ≤ (90 : F) := min_le_right _ _
    rw [hangle]
    constructor
    · positivity
    · rw [div_le_iff₀ (by norm_num)]
      exact mul_le_mul_of_nonneg_left hm1 hd

/-- Witness of C7: radius 2, turn angle 30 degrees, look-ahead distance 1, in rational
arithmetic. -/
theorem turn_distance_spec_witness :
    (0 : ℚ) ≤ 2 ∧ 0 ≤ (unitLookaheadState ℚ)._L1_dist ∧
    0 ≤ turn_distance_angle (ahrsAtRest ℚ) (unitLookaheadState ℚ) 2 30 ∧
    turn_distance_angle (ahrsAtRest ℚ) (unitLookaheadState ℚ) 2 30
      ≤ turn_distance (ahrsAtRest ℚ) (unitLookaheadState ℚ) 2 :=
  have h0 : (0 : ℚ) ≤ 2 := by norm_num
  have h1 : 0 ≤ (unitLookaheadState ℚ)._L1_dist := by norm_num [unitLookaheadState]
  ⟨h0, h1, (turn_distance_spec (ahrsAtRest ℚ) (unitLookaheadState ℚ) 2 30).2.2.2.2.2.2.2 h0 h1⟩

/-- C8: with the loiter bank limit configured as 0, for every requested radius, every
target airspeed (available or not) and every airspeed scale factor, `loiter_radius` returns
the requested radius times `EAS2TAS²`, and it is monotonic non-decreasing in the requested
radius (`is_zero` holds of 0). -/
theorem loiter_radius_scaling_disabled (env : Env F) (cfg : Config F) (ahrs : AHRS Loc F)
    (tecs : Option (TECS F))
    (hzero : env.is_zero 0 = true)
    (hlim : cfg._loiter_bank_limit = 0) :
    (∀ r : F, loiter_radius env cfg ahrs tecs r = r * ahrs.EAS2TAS ^ 2) ∧
    (∀ r1 r2 : F, r1 ≤ r2 →
      loiter_radius env cfg ahrs tecs r1 ≤ loiter_radius env cfg ahrs tecs r2) := by
  have hc : constrain_float cfg._loiter_bank_limit 0 89 = 0 := by
    rw [hlim]
    simp [constrain_float]
  have heq : ∀ r : F, loiter_radius env cfg ahrs tecs r = r * ahrs.EAS2TAS ^ 2 := by
    intro r
    simp only [loiter_radius, hc, hzero, Bool.true_or, if_true, sq, pow_two]
  refine ⟨heq, ?_⟩
  intro r1 r2 h
  rw [heq, heq]
  exact mul_le_mul_of_nonneg_right h (sq_nonneg _)

/-- Witness of C8: the default configuration, whose loiter bank limit is 0, without an
airspeed controller. -/
theorem loiter_radius_scaling_disabled_witness :
    realEnv.is_zero 0 = true ∧ (defaultConfig ℝ)._loiter_bank_limit = 0 ∧
    (∀ r : ℝ, loiter_radius realEnv (defaultConfig ℝ) (ahrsAtRest ℝ) none r
      = r * (ahrsAtRest ℝ).EAS2TAS ^ 2) ∧
    (∀ r1 r2 : ℝ, r1 ≤ r2 →
      loiter_radius realEnv (defaultConfig ℝ) (ahrsAtRest ℝ) none r1
        ≤ loiter_radius realEnv (defaultConfig ℝ) (ahrsAtRest ℝ) none r2) :=
  have hz : realEnv.is_zero 0 = true := by simp [realEnv]
  ⟨hz, rfl, loiter_radius_scaling_disabled realEnv (defaultConfig ℝ) (ahrsAtRest ℝ) none hz rfl⟩

/-- C9: with bank-limit scaling active (bank limit in (0, 89], a target airspeed `v`
available, and none of the bank limit, `v` and `a = tan(limit) * g` passing `is_zero`):
if `v² / a` exceeds the requested radius `r` then `loiter_radius r = r * EAS2TAS²`,
otherwise `loiter_radius r = max (v² / a * EAS2TAS²) r`, which is never smaller than `r`. -/
theorem loiter_radius_bank_limited (env : Env F) (cfg : Config F) (ahrs : AHRS Loc F)
    (v r : F)
    (hlim : 0 < cfg._loiter_bank_limit ∧ cfg._loiter_bank_limit ≤ 89)
    (hzl : env.is_zero cfg._loiter_bank_limit = false)
    (hzv : env.is_zero v = false)
    (hza : env.is_zero (env.tanf (radians env cfg._loiter_bank_limit) * env.GRAVITY_MSS)
      = false) :
    (v ^ 2 / (env.tanf (radians env cfg._loiter_bank_limit) * env.GRAVITY_MSS) > r →
      loiter_radius env cfg ahrs (some ⟨v⟩) r = r * ahrs.EAS2TAS ^ 2) ∧
    (¬ v ^ 2 / (env.tanf (radians env cfg._loiter_bank_limit) * env.GRAVITY_MSS) > r →
      loiter_radius env cfg ahrs (some ⟨v⟩) r
        = max (v ^ 2 / (env.tanf (radians env cfg._loiter_bank_limit) * env.GRAVITY_MSS)
            * ahrs.EAS2TAS ^ 2) r ∧
      r ≤ loiter_radius env cfg ahrs (some ⟨v⟩) r) := by
  have hc : constrain_float cfg._loiter_bank_limit 0 89 = cfg._loiter_bank_limit := by
    unfold constrain_float
    rw [if_neg (not_lt.mpr (le_of_lt hlim.1)), if_neg (not_lt.mpr hlim.2)]
  constructor
  · intro h
    simp only [loiter_radius, hc, hzl, hzv, hza, Bool.or_self, Bool.false_eq_true, if_false,
      sq, pow_two] at h ⊢
    rw [if_pos h]
  · intro h
    have heq : loiter_radius env cfg ahrs (some ⟨v⟩) r
        = max (v ^ 2 / (env.tanf (radians env cfg._loiter_bank_limit) * env.GRAVITY_MSS)
            * ahrs.EAS2TAS ^ 2) r := by
      simp only [loiter_radius, hc, hzl, hzv, hza, Bool.or_self, Bool.false_eq_true, if_false,
        sq, pow_two, MAX_eq_max] at h ⊢
      rw [if_neg h]
    exact ⟨heq, heq ▸ le_max_right _ _⟩

/-- Witness of C9: bank limit 45 degrees, target airspeed 20 m/s, requested radius 60 m. -/
theorem loiter_radius_bank_limited_witness :
    (0 < (bankLimitedConfig ℝ)._loiter_bank_limit ∧ (bankLimitedConfig ℝ)._loiter_bank_limit ≤ 89) ∧
    realEnv.is_zero (bankLimitedConfig ℝ)._loiter_bank_limit = false ∧
    realEnv.is_zero 20 = false ∧
    realEnv.is_zero (realEnv.tanf (radians realEnv (bankLimitedConfig ℝ)._loiter_bank_limit)
      * realEnv.GRAVITY_MSS) = false ∧
    ((20 : ℝ) ^ 2 / (realEnv.tanf (radians realEnv (bankLimitedConfig ℝ)._loiter_bank_limit)
        * realEnv.GRAVITY_MSS) > 60 →
      loiter_radius realEnv (bankLimitedConfig ℝ) (ahrsAtRest ℝ) (some ⟨20⟩) 60
        = 60 * (ahrsAtRest ℝ).EAS2TAS ^ 2) ∧
    (¬ (20 : ℝ) ^ 2 / (realEnv.tanf (radians realEnv (bankLimitedConfig ℝ)._loiter_bank_limit)
        * realEnv.GRAVITY_MSS) > 60 →
      loiter_radius realEnv (bankLimitedConfig ℝ) (ahrsAtRest ℝ) (some ⟨20⟩) 60
        = max (20 ^ 2 / (realEnv.tanf (radians realEnv (bankLimitedConfig ℝ)._loiter_bank_limit)
            * realEnv.GRAVITY_MSS) * (ahrsAtRest ℝ).EAS2TAS ^ 2) 60 ∧
      60 ≤ loiter_radius realEnv (bankLimitedConfig ℝ) (ahrsAtRest ℝ) (some ⟨20⟩) 60) :=
  have hlim : 0 < (bankLimitedConfig ℝ)._loiter_bank_limit ∧
      (bankLimitedConfig ℝ)._loiter_bank_limit ≤ 89 := by
    norm_num [bankLimitedConfig]
  have hzl : realEnv.is_zero (bankLimitedConfig ℝ)._loiter_bank_limit = false := by
    norm_num [realEnv, bankLimitedConfig]
  have hzv : realEnv.is_zero 20 = false := by
    norm_num [realEnv]
  have hrad : radians realEnv (bankLimitedConfig ℝ)._loiter_bank_limit = Real.pi / 4 := by
    simp only [radians, realEnv, bankLimitedConfig]
    ring
  have hza : realEnv.is_zero (realEnv.tanf
      (radians realEnv (bankLimitedConfig ℝ)._loiter_bank_limit) * realEnv.GRAVITY_MSS)
      = false := by
    rw [hrad]
    norm_num [realEnv, Real.tan_pi_div_four]
  ⟨hlim, hzl, hzv, hza,
    loiter_radius_bank_limited realEnv (bankLimitedConfig ℝ) (ahrsAtRest ℝ) 20 60
      hlim hzl hzv hza⟩

/-- C10: after `update_level_flight`, for every pre-state and every navigation input, the
lateral-acceleration demand, the crosstrack error and the bearing error are 0, the circling
and stale flags are false, and `nav_roll_cd` returns 0 for every pitch (the arc tangent of
0 is 0). -/
theorem update_level_flight_zero [FloorRing F] (env : Env F) (ahrs : AHRS Loc F) (s : State F)
    (hatan : env.atanf 0 = 0) :
    (update_level_flight ahrs s)._latAccDem = 0 ∧
    (update_level_flight ahrs s)._crosstrack_error = 0 ∧
    (update_level_flight ahrs s)._bearing_error = 0 ∧
    (update_level_flight ahrs s)._WPcircle = false ∧
    (update_level_flight ahrs s)._data_is_stale = false ∧
    (∀ reading : AHRS Loc F, nav_roll_cd env reading (update_level_flight ahrs s) = 0) := by
  refine ⟨rfl, rfl, rfl, rfl, rfl, ?_⟩
  intro reading
  have h0 : (update_level_flight ahrs s)._latAccDem = 0 := rfl
  simp only [nav_roll_cd, h0, zero_mul, hatan, degrees, constrain_float, toInt32]
  norm_num

/-- Witness of C10: level flight from the zero state, read back at a pitch of 0. -/
theorem update_level_flight_zero_witness :
    realEnv.atanf 0 = 0 ∧
    (update_level_flight (ahrsAtRest ℝ) (zeroState ℝ))._latAccDem = 0 ∧
    (update_level_flight (ahrsAtRest ℝ) (zeroState ℝ))._crosstrack_error = 0 ∧
    (update_level_flight (ahrsAtRest ℝ) (zeroState ℝ))._bearing_error = 0 ∧
    (update_level_flight (ahrsAtRest ℝ) (zeroState ℝ))._WPcircle = false ∧
    (update_level_flight (ahrsAtRest ℝ) (zeroState ℝ))._data_is_stale = false ∧
    (∀ reading : AHRS (Vector2f ℝ) ℝ,
      nav_roll_cd realEnv reading (update_level_flight (ahrsAtRest ℝ) (zeroState ℝ)) = 0) :=
  ⟨Real.arctan_zero,
    update_level_flight_zero realEnv (ahrsAtRest ℝ) (zeroState ℝ) Real.arctan_zero⟩

/-- C11: for every pre-state with the reverse flag unset, every ground velocity and every
non-zero loop period, `update_heading_hold` called with the desired heading equal to the
yaw of the navigation source stores bearing error 0 and lateral acceleration demand 0
(the sine of 0 is 0 and `M_PI` is not negative). -/
theorem heading_hold_on_heading (env : Env F) (cfg : Config F) (ahrs : AHRS Loc F)
    (s : State F) (navigation_heading_cd : Int)
    (hsin : env.sinf 0 = 0) (hpi : 0 ≤ env.M_PI)
    (hreverse : s._reverse = false) (_hperiod : cfg._L1_period ≠ 0)
    (hheading : navigation_heading_cd = get_yaw_sensor ahrs s) :
    (update_heading_hold env cfg ahrs s navigation_heading_cd)._bearing_error = 0 ∧
    (update_heading_hold env cfg ahrs s navigation_heading_cd)._latAccDem = 0 := by
  have hyaw : navigation_heading_cd = ahrs.yaw_sensor := by
    rw [hheading, get_yaw_sensor, hreverse]
    rfl
  have hNu : radians env (((wrap_180_cd (wrap_180_cd navigation_heading_cd
      - wrap_180_cd ahrs.yaw_sensor) : Int) : F) * 0.01) = 0 := by
    rw [hyaw, sub_self]
    simp [wrap_180_cd, radians]
  have hclamp : constrain_float (0 : F) (-M_PI_2 env) (M_PI_2 env) = 0 := by
    have h2 : 0 ≤ M_PI_2 env := div_nonneg hpi (by norm_num)
    unfold constrain_float
    rw [if_neg (not_lt.mpr (neg_nonpos.mpr h2)), if_neg (not_lt.mpr h2)]
  constructor
  · show radians env (((wrap_180_cd (wrap_180_cd navigation_heading_cd
      - wrap_180_cd ahrs.yaw_sensor) : Int) : F) * 0.01) = 0
    exact hNu
  · show 2.0 * env.sinf (constrain_float (radians env
      (((wrap_180_cd (wrap_180_cd navigation_heading_cd
        - wrap_180_cd ahrs.yaw_sensor) : Int) : F) * 0.01)) (-M_PI_2 env) (M_PI_2 env))
      * (Vector2f.length env ahrs.groundspeed_vector * (4.4428 / cfg._L1_period)) = 0
    rw [hNu, hclamp, hsin]
    simp

/-- Witness of C11: the default configuration, yaw 0 and desired heading 0. -/
theorem heading_hold_on_heading_witness :
    realEnv.sinf 0 = 0 ∧ 0 ≤ realEnv.M_PI ∧ (zeroState ℝ)._reverse = false ∧
    (defaultConfig ℝ)._L1_period ≠ 0 ∧ (0 : Int) = get_yaw_sensor (ahrsAtRest ℝ) (zeroState ℝ) ∧
    (update_heading_hold realEnv (defaultConfig ℝ) (ahrsAtRest ℝ) (zeroState ℝ) 0)._bearing_error
      = 0 ∧
    (update_heading_hold realEnv (defaultConfig ℝ) (ahrsAtRest ℝ) (zeroState ℝ) 0)._latAccDem
      = 0 :=
  have hp : (defaultConfig ℝ)._L1_period ≠ 0 := by norm_num [defaultConfig]
  ⟨Real.sin_zero, Real.pi_pos.le, rfl, hp, rfl,
    heading_hold_on_heading realEnv (defaultConfig ℝ) (ahrsAtRest ℝ) (zeroState ℝ) 0
      Real.sin_zero Real.pi_pos.le rfl hp rfl⟩

/-- C18: starting from a state in which the circling flag is false, after every finite
sequence of calls of `update_waypoint`, `update_loiter`, `update_heading_hold` and
`update_level_flight` with arbitrary inputs, `reached_loiter_target` returns false. -/
theorem circling_never_reported [FloorRing F] (env : Env F) (geo : Geo Loc F)
    (calls : List (Call Loc F)) (s : State F) (h : s._WPcircle = false) :
    reached_loiter_target (run env geo s calls) = false := by
  unfold reached_loiter_target run
  induction calls generalizing s with
  | nil => exact h
  | cons c rest ih =>
    rw [List.foldl_cons]
    exact ih (step env geo s c) (step_WPcircle env geo s c h)

/-- Witness of C18: a waypoint leg, a loiter, a heading hold and level flight in a row. -/
theorem circling_never_reported_witness :
    (zeroState ℝ)._WPcircle = false ∧
    reached_loiter_target (run realEnv (planarGeo ℝ realEnv) (zeroState ℝ)
      [Call.waypoint (defaultConfig ℝ) (ahrsAtRest ℝ) ⟨0, 0⟩ ⟨1000, 0⟩ 0,
       Call.loiter (defaultConfig ℝ) (ahrsAtRest ℝ) none ⟨0, 0⟩ 60 1,
       Call.heading_hold (defaultConfig ℝ) (ahrsAtRest ℝ) 9000,
       Call.level_flight (ahrsAtRest ℝ)]) = false :=
  ⟨rfl, circling_never_reported realEnv (planarGeo ℝ realEnv) _ (zeroState ℝ) rfl⟩

/-- C19 as stated fails: from a state that reports a crosstrack error of 5 m, a call of
`update_loiter` that obtains a position leaves the stored crosstrack error at 5 m. -/
theorem loiter_keeps_crosstrack_error :
    (ahrsAtRest ℝ).location = some ⟨0, 0⟩ ∧
    (update_loiter realEnv (planarGeo ℝ realEnv) (defaultConfig ℝ) (ahrsAtRest ℝ) none
      (offTrackState ℝ) ⟨0, 0⟩ 60 1)._crosstrack_error = 5 ∧
    (update_loiter realEnv (planarGeo ℝ realEnv) (defaultConfig ℝ) (ahrsAtRest ℝ) none
      (offTrackState ℝ) ⟨0, 0⟩ 60 1)._crosstrack_error ≠ 0 := by
  have h : (update_loiter realEnv (planarGeo ℝ realEnv) (defaultConfig ℝ) (ahrsAtRest ℝ) none
      (offTrackState ℝ) ⟨0, 0⟩ 60 1)._crosstrack_error = 5 := by
    rw [update_loiter_crosstrack_error]
    rfl
  refine ⟨rfl, h, ?_⟩
  rw [h]
  norm_num

/-- C19 amended: for every pre-state and every input, after `update_heading_hold` and after
`update_level_flight` the stored crosstrack error is 0; `update_loiter` leaves the stored
crosstrack error at its value from before the call. -/
theorem crosstrack_error_outside_legs [FloorRing F] (env : Env F) (geo : Geo Loc F)
    (cfg : Config F) (ahrs : AHRS Loc F) (tecs : Option (TECS F)) (s : State F)
    (center_WP : Loc) (radius : F) (loiter_direction : Int) (navigation_heading_cd : Int) :
    (update_heading_hold env cfg ahrs s navigation_heading_cd)._crosstrack_error = 0 ∧
    (update_level_flight ahrs s)._crosstrack_error = 0 ∧
    (update_loiter env geo cfg ahrs tecs s center_WP radius loiter_direction)._crosstrack_error
      = s._crosstrack_error :=
  ⟨rfl, rfl, update_loiter_crosstrack_error env geo cfg ahrs tecs s center_WP radius
    loiter_direction⟩

/-- C12 fails on the code: with the reverse flag set and a yaw reading of 0, the yaw
accessors return the rotated yaw (18000 centidegrees, π radians), but `update_heading_hold`
called with the desired heading 18000, which is the rotated yaw, stores the turn error π
computed against the raw yaw, and `update_level_flight` stores the raw yaw 0 as target
bearing and nav bearing. -/
theorem reverse_yaw_bypassed :
    (reversedState ℝ)._reverse = true ∧
    get_yaw_sensor (ahrsAtRest ℝ) (reversedState ℝ) = 18000 ∧
    get_yaw realEnv (ahrsAtRest ℝ) (reversedState ℝ) = Real.pi ∧
    wrap_180_cd (wrap_180_cd 18000 - get_yaw_sensor (ahrsAtRest ℝ) (reversedState ℝ)) = 0 ∧
    (update_heading_hold realEnv (defaultConfig ℝ) (ahrsAtRest ℝ) (reversedState ℝ)
      18000)._bearing_error = Real.pi ∧
    (update_level_flight (ahrsAtRest ℝ) (reversedState ℝ))._target_bearing_cd = 0 ∧
    (update_level_flight (ahrsAtRest ℝ) (reversedState ℝ))._nav_bearing = 0 := by
  have hpi := Real.pi_pos
  refine ⟨rfl, by decide, ?_, by decide, ?_, rfl, rfl⟩
  · have hfloor : ⌊(Real.pi + 0) / (2 * Real.pi)⌋ = 0 := by
      rw [Int.floor_eq_zero_iff]
      constructor
      · positivity
      · rw [add_zero, div_lt_one (by positivity)]
        linarith
    simp only [get_yaw, reversedState, if_true, wrap_PI, realEnv, ahrsAtRest, hfloor]
    norm_num
  · have hcd : wrap_180_cd (wrap_180_cd 18000 - wrap_180_cd (ahrsAtRest ℝ).yaw_sensor)
        = 18000 := by decide
    show radians realEnv (((wrap_180_cd (wrap_180_cd 18000
      - wrap_180_cd (ahrsAtRest ℝ).yaw_sensor) : Int) : ℝ) * 0.01) = Real.pi
    rw [hcd]
    simp only [radians, realEnv]
    push_cast
    ring

/-- C13: in `update_waypoint`, over the reals, the track direction `AB` used after the
substitutions for degenerate cases and the normalisation has length exactly 1: it is the
normalised vector from A to B when that has length at least 1e-6, else the normalised
vector from the aircraft to B when that has length at least 1e-6, else the heading vector
`(cos yaw, sin yaw)`; the crosstrack error stored is the cross product with this `AB`. -/
theorem waypoint_track_direction_unit {Loc : Type} (geo : Geo Loc ℝ) (ahrs : AHRS Loc ℝ)
    (s : State ℝ) (prev_WP next_WP loc : Loc) :
    Vector2f.length realEnv (wp_AB realEnv geo ahrs s prev_WP next_WP loc) = 1 ∧
    (1.0e-6 ≤ Vector2f.length realEnv (geo.get_distance_NE prev_WP next_WP) →
      wp_AB realEnv geo ahrs s prev_WP next_WP loc
        = Vector2f.normalized realEnv (geo.get_distance_NE prev_WP next_WP)) ∧
    (Vector2f.length realEnv (geo.get_distance_NE prev_WP next_WP) < 1.0e-6 →
      1.0e-6 ≤ Vector2f.length realEnv (geo.get_distance_NE loc next_WP) →
      wp_AB realEnv geo ahrs s prev_WP next_WP loc
        = Vector2f.normalized realEnv (geo.get_distance_NE loc next_WP)) ∧
    (Vector2f.length realEnv (geo.get_distance_NE prev_WP next_WP) < 1.0e-6 →
      Vector2f.length realEnv (geo.get_distance_NE loc next_WP) < 1.0e-6 →
      wp_AB realEnv geo ahrs s prev_WP next_WP loc
        = ⟨Real.cos (get_yaw realEnv ahrs s), Real.sin (get_yaw realEnv ahrs s)⟩) ∧
    (∀ (cfg : Config ℝ) (dist_min : ℝ), ahrs.location = some loc →
      (update_waypoint realEnv geo cfg ahrs s prev_WP next_WP dist_min)._crosstrack_error
        = (geo.get_distance_NE prev_WP loc).cross
            (wp_AB realEnv geo ahrs s prev_WP next_WP loc)) := by
  have hcase1 : 1.0e-6 ≤ Vector2f.length realEnv (geo.get_distance_NE prev_WP next_WP) →
      wp_AB realEnv geo ahrs s prev_WP next_WP loc
        = Vector2f.normalized realEnv (geo.get_distance_NE prev_WP next_WP) := by
    intro h
    simp only [wp_AB, wp_AB_raw, if_neg (not_lt.mpr h)]
  have hcase2 : Vector2f.length realEnv (geo.get_distance_NE prev_WP next_WP) < 1.0e-6 →
      1.0e-6 ≤ Vector2f.length realEnv (geo.get_distance_NE loc next_WP) →
      wp_AB realEnv geo ahrs s prev_WP next_WP loc
        = Vector2f.normalized realEnv (geo.get_distance_NE loc next_WP) := by
    intro h1 h2
    simp only [wp_AB, wp_AB_raw, if_pos h1, if_neg (not_lt.mpr h2)]
  have hcase3 : Vector2f.length realEnv (geo.get_distance_NE prev_WP next_WP) < 1.0e-6 →
      Vector2f.length realEnv (geo.get_distance_NE loc next_WP) < 1.0e-6 →
      wp_AB realEnv geo ahrs s prev_WP next_WP loc
        = ⟨Real.cos (get_yaw realEnv ahrs s), Real.sin (get_yaw realEnv ahrs s)⟩ := by
    intro h1 h2
    simp only [wp_AB, wp_AB_raw, if_pos h1, if_pos h2]
    exact normalized_cos_sin_real _
  refine ⟨?_, hcase1, hcase2, hcase3, ?_⟩
  · by_cases h1 : Vector2f.length realEnv (geo.get_distance_NE prev_WP next_WP) < 1.0e-6
    · by_cases h2 : Vector2f.length realEnv (geo.get_distance_NE loc next_WP) < 1.0e-6
      · rw [hcase3 h1 h2]
        exact length_cos_sin_real _
      · rw [hcase2 h1 (not_lt.mp h2)]
        exact length_normalized_real _ (lt_of_lt_of_le (by norm_num) (not_lt.mp h2))
    · rw [hcase1 (not_lt.mp h1)]
      exact length_normalized_real _ (lt_of_lt_of_le (by norm_num) (not_lt.mp h1))
  · intro cfg dist_min hloc
    exact (update_waypoint_locals realEnv geo cfg ahrs s prev_WP next_WP loc dist_min hloc).1

/-- Witness of C13: coincident waypoints with the aircraft on them, so that the heading
vector is used. -/
theorem waypoint_track_direction_unit_witness :
    Vector2f.length realEnv ((planarGeo ℝ realEnv).get_distance_NE ⟨0, 0⟩ ⟨0, 0⟩) < 1.0e-6 ∧
    wp_AB realEnv (planarGeo ℝ realEnv) (ahrsAtRest ℝ) (zeroState ℝ) ⟨0, 0⟩ ⟨0, 0⟩ ⟨0, 0⟩
      = ⟨Real.cos (get_yaw realEnv (ahrsAtRest ℝ) (zeroState ℝ)),
          Real.sin (get_yaw realEnv (ahrsAtRest ℝ) (zeroState ℝ))⟩ ∧
    Vector2f.length realEnv
      (wp_AB realEnv (planarGeo ℝ realEnv) (ahrsAtRest ℝ) (zeroState ℝ) ⟨0, 0⟩ ⟨0, 0⟩ ⟨0, 0⟩)
      = 1 :=
  have h : Vector2f.length realEnv ((planarGeo ℝ realEnv).get_distance_NE ⟨0, 0⟩ ⟨0, 0⟩)
      < 1.0e-6 := by
    norm_num [planarGeo, Vector2f.sub, Vector2f.length, sq, realEnv]
  ⟨h,
    (waypoint_track_direction_unit (planarGeo ℝ realEnv) (ahrsAtRest ℝ) (zeroState ℝ)
      ⟨0, 0⟩ ⟨0, 0⟩ ⟨0, 0⟩).2.2.2.1 h h,
    (waypoint_track_direction_unit (planarGeo ℝ realEnv) (ahrsAtRest ℝ) (zeroState ℝ)
      ⟨0, 0⟩ ⟨0, 0⟩ ⟨0, 0⟩).1⟩

/-- C14: over the reals, for every crosstrack error and every look-ahead distance the track
capture angle `Nu1` is at most π/4 in magnitude, and after a call of `update_waypoint` that
obtains a position and takes the normal tracking branch the stored nav bearing differs from
the bearing of `AB` by at most π/4. -/
theorem track_capture_angle_bounded {Loc : Type} (geo : Geo Loc ℝ) (cfg : Config ℝ)
    (ahrs : AHRS Loc ℝ) (s : State ℝ) (prev_WP next_WP loc : Loc) (dist_min : ℝ) :
    (∀ crosstrack lookahead : ℝ, |wp_Nu1 realEnv crosstrack lookahead| ≤ Real.pi / 4) ∧
    (ahrs.location = some loc →
      ¬ wp_behind realEnv geo cfg ahrs s prev_WP next_WP loc dist_min →
      |(update_waypoint realEnv geo cfg ahrs s prev_WP next_WP dist_min)._nav_bearing
        - realEnv.atan2f (wp_AB realEnv geo ahrs s prev_WP next_WP loc).y
            (wp_AB realEnv geo ahrs s prev_WP next_WP loc).x| ≤ Real.pi / 4) := by
  have hNu1 : ∀ crosstrack lookahead : ℝ,
      |wp_Nu1 realEnv crosstrack lookahead| ≤ Real.pi / 4 := by
    intro crosstrack lookahead
    exact abs_arcsin_clamped_le _
  refine ⟨hNu1, ?_⟩
  intro hloc hb
  rw [(update_waypoint_locals realEnv geo cfg ahrs s prev_WP next_WP loc dist_min hloc).2.2.2 hb,
    add_sub_cancel_left]
  exact hNu1 _ _

/-- Witness of C14: the default configuration with the aircraft at rest on the previous
waypoint, where the normal tracking branch is taken. -/
theorem track_capture_angle_bounded_witness :
    (ahrsAtRest ℝ).location = some ⟨0, 0⟩ ∧
    ¬ wp_behind realEnv (planarGeo ℝ realEnv) (defaultConfig ℝ) (ahrsAtRest ℝ) (zeroState ℝ)
      ⟨0, 0⟩ ⟨1000, 0⟩ ⟨0, 0⟩ 0 ∧
    |(update_waypoint realEnv (planarGeo ℝ realEnv) (defaultConfig ℝ) (ahrsAtRest ℝ)
        (zeroState ℝ) ⟨0, 0⟩ ⟨1000, 0⟩ 0)._nav_bearing
      - realEnv.atan2f
          (wp_AB realEnv (planarGeo ℝ realEnv) (ahrsAtRest ℝ) (zeroState ℝ)
            ⟨0, 0⟩ ⟨1000, 0⟩ ⟨0, 0⟩).y
          (wp_AB realEnv (planarGeo ℝ realEnv) (ahrsAtRest ℝ) (zeroState ℝ)
            ⟨0, 0⟩ ⟨1000, 0⟩ ⟨0, 0⟩).x| ≤ Real.pi / 4 :=
  have hb : ¬ wp_behind realEnv (planarGeo ℝ realEnv) (defaultConfig ℝ) (ahrsAtRest ℝ)
      (zeroState ℝ) ⟨0, 0⟩ ⟨1000, 0⟩ ⟨0, 0⟩ 0 := by
    intro h
    have h1 := h.1
    norm_num [wp_L1_dist, wp_groundSpeed, planarGeo, defaultConfig, ahrsAtRest, realEnv,
      Vector2f.length, Vector2f.sub, sq, MAX] at h1
  ⟨rfl, hb,
    (track_capture_angle_bounded (planarGeo ℝ realEnv) (defaultConfig ℝ) (ahrsAtRest ℝ)
      (zeroState ℝ) ⟨0, 0⟩ ⟨1000, 0⟩ ⟨0, 0⟩ 0).2 rfl hb⟩

/-- C15: previous waypoint (0,0), next waypoint (1000,0), aircraft at (-50,0) with ground
velocity 10 m/s due East, default parameters, minimum distance at most 40 m.  After
`update_waypoint` the look-ahead distance is `0.3183099 * 0.75 * 17 * 10`, within 0.05 of
40.6; the branch for an aircraft behind the first waypoint is taken, the nav bearing being
the bearing 0 from the aircraft to that waypoint; the lateral acceleration demand is
`-(2 * 10 * 10 / lookahead)`, which is not zero. -/
theorem scenario_behind_first_waypoint (s : State ℝ) (dist_min : ℝ) (hmin : dist_min ≤ 40) :
    (update_waypoint realEnv (planarGeo ℝ realEnv) (defaultConfig ℝ) ahrsScenario s
      ⟨0, 0⟩ ⟨1000, 0⟩ dist_min)._L1_dist = 0.3183099 * 0.75 * 17 * 10 ∧
    |(update_waypoint realEnv (planarGeo ℝ realEnv) (defaultConfig ℝ) ahrsScenario s
      ⟨0, 0⟩ ⟨1000, 0⟩ dist_min)._L1_dist - 40.6| < 0.05 ∧
    wp_behind realEnv (planarGeo ℝ realEnv) (defaultConfig ℝ) ahrsScenario s
      ⟨0, 0⟩ ⟨1000, 0⟩ ⟨-50, 0⟩ dist_min ∧
    (update_waypoint realEnv (planarGeo ℝ realEnv) (defaultConfig ℝ) ahrsScenario s
      ⟨0, 0⟩ ⟨1000, 0⟩ dist_min)._nav_bearing = 0 ∧
    (update_waypoint realEnv (planarGeo ℝ realEnv) (defaultConfig ℝ) ahrsScenario s
      ⟨0, 0⟩ ⟨1000, 0⟩ dist_min)._latAccDem = -(2 * 10 * 10 / (0.3183099 * 0.75 * 17 * 10)) ∧
    (update_waypoint realEnv (planarGeo ℝ realEnv) (defaultConfig ℝ) ahrsScenario s
      ⟨0, 0⟩ ⟨1000, 0⟩ dist_min)._latAccDem ≠ 0 := by
  have hpi := Real.pi_pos
  have hpi4 := Real.pi_lt_d6
  have hlt : dist_min < 0.3183099 * 0.75 * 17 * 10 := by
    norm_num
    linarith
  norm_num at hlt
  have h100 : Real.sqrt 100 = 10 := by
    rw [show (100 : ℝ) = 10 * 10 by norm_num]
    exact Real.sqrt_mul_self (by norm_num)
  have h2500 : Real.sqrt 2500 = 50 := by
    rw [show (2500 : ℝ) = 50 * 50 by norm_num]
    exact Real.sqrt_mul_self (by norm_num)
  have h1000000 : Real.sqrt 1000000 = 1000 := by
    rw [show (1000000 : ℝ) = 1000 * 1000 by norm_num]
    exact Real.sqrt_mul_self (by norm_num)
  have harg : Complex.arg ⟨0, -10⟩ = -(Real.pi / 2) := by
    have h : (⟨0, -10⟩ : ℂ) = ((10 : ℝ) : ℂ) * (-Complex.I) := by
      apply Complex.ext <;> simp
    rw [h, Complex.arg_real_mul _ (by norm_num : (0 : ℝ) < 10), Complex.arg_neg_I]
  have harg1 : Complex.arg ⟨1, 0⟩ = 0 := by
    have h : (⟨1, 0⟩ : ℂ) = 1 := by
      apply Complex.ext <;> simp
    rw [h, Complex.arg_one]
  have hclamp : constrain_float (-(Real.pi / 2)) (-1.5708) 1.5708 = -(Real.pi / 2) := by
    apply constrain_float_of_mem
    · norm_num at hpi4 ⊢
      linarith
    · norm_num
      linarith
  norm_num at hclamp
  have hloc : ahrsScenario.location = some ⟨-50, 0⟩ := rfl
  obtain ⟨-, hL1, hnavb, -⟩ := update_waypoint_locals realEnv (planarGeo ℝ realEnv)
    (defaultConfig ℝ) ahrsScenario s ⟨0, 0⟩ ⟨1000, 0⟩ ⟨-50, 0⟩ dist_min hloc
  have hL1v : wp_L1_dist realEnv (planarGeo ℝ realEnv) (defaultConfig ℝ) ahrsScenario s
      ⟨0, 0⟩ ⟨1000, 0⟩ ⟨-50, 0⟩ dist_min = 0.3183099 * 0.75 * 17 * 10 := by
    norm_num [wp_L1_dist, wp_groundSpeed, defaultConfig, ahrsScenario, realEnv,
      Vector2f.length, sq, MAX, h100, hlt]
  have hbehind : wp_behind realEnv (planarGeo ℝ realEnv) (defaultConfig ℝ) ahrsScenario s
      ⟨0, 0⟩ ⟨1000, 0⟩ ⟨-50, 0⟩ dist_min := by
    constructor
    · rw [hL1v]
      norm_num [planarGeo, realEnv, Vector2f.length, Vector2f.sub, sq, h2500]
    · norm_num [wp_AB, wp_AB_raw, planarGeo, realEnv, Vector2f.length, Vector2f.sub,
        Vector2f.normalized, Vector2f.dot, sq, MAX, h2500, h1000000]
  have hlat : (update_waypoint realEnv (planarGeo ℝ realEnv) (defaultConfig ℝ) ahrsScenario s
      ⟨0, 0⟩ ⟨1000, 0⟩ dist_min)._latAccDem
      = -(2 * 10 * 10 / (0.3183099 * 0.75 * 17 * 10)) := by
    norm_num [update_waypoint, planarGeo, defaultConfig, ahrsScenario, realEnv,
      Vector2f.length, Vector2f.sub, Vector2f.normalized, Vector2f.cross, Vector2f.dot,
      Vector2f.neg, sq, MAX, prevent_indecision_fst, h100, h2500, h1000000, hlt, harg]
    rw [prevent_indecision_snd_of_le, hclamp, Real.sin_neg, Real.sin_pi_div_two]
    · norm_num
    · rw [abs_neg, abs_of_pos (by positivity)]
      show Real.pi / 2 ≤ 0.9 * Real.pi
      linarith
  refine ⟨?_, ?_, hbehind, ?_, hlat, ?_⟩
  · rw [hL1, hL1v]
  · rw [hL1, hL1v]
    norm_num [abs_lt]
  · rw [hnavb hbehind]
    norm_num [planarGeo, realEnv, Vector2f.length, Vector2f.sub, Vector2f.normalized, sq,
      h2500, harg1]
  · rw [hlat]
    norm_num

/-- Witness of C15: the scenario from the zero state with no minimum distance. -/
theorem scenario_behind_first_waypoint_witness :
    (0 : ℝ) ≤ 40 ∧
    (update_waypoint realEnv (planarGeo ℝ realEnv) (defaultConfig ℝ) ahrsScenario (zeroState ℝ)
      ⟨0, 0⟩ ⟨1000, 0⟩ 0)._latAccDem ≠ 0 :=
  ⟨by norm_num,
    (scenario_behind_first_waypoint (zeroState ℝ) 0 (by norm_num)).2.2.2.2.2⟩

/-- C16: in `update_loiter`, over the reals, for every scaled radius `R > 0`, every upwind
distance `d` with `0 ≤ d ≤ 2R`, either loiter direction and every position of the aircraft,
the reference point `T` has length `R`, and when the centre-relative vector of the aircraft
has length `R` the look-ahead vector `L1 = T - (centre-relative vector)` has length exactly
`d`; the lateral acceleration demand of `update_loiter` divides by the length of this `L1`. -/
theorem loiter_lookahead_is_chord (Loc : Type) (R d : ℝ) (lcv : Vector2f ℝ)
    (loiter_direction : Int)
    (hR : 0 < R) (hd : 0 ≤ d ∧ d ≤ 2 * R)
    (hdir : loiter_direction = 1 ∨ loiter_direction = -1) :
    Vector2f.length realEnv (loiter_T realEnv d R lcv loiter_direction) = R ∧
    (Vector2f.length realEnv lcv = R →
      Vector2f.length realEnv (loiter_L1 realEnv d R lcv loiter_direction) = d) ∧
    (∀ (geo : Geo Loc ℝ) (cfg : Config ℝ) (ahrs : AHRS Loc ℝ) (tecs : Option (TECS ℝ))
      (s : State ℝ) (center_WP loc : Loc) (radius : ℝ), ahrs.location = some loc →
      (update_loiter realEnv geo cfg ahrs tecs s center_WP radius loiter_direction)._latAccDem
        = 2.0 * MAX (ahrs.groundspeed_vector.length realEnv) 1.0
            * MAX (ahrs.groundspeed_vector.length realEnv) 1.0
            / (loiter_L1 realEnv cfg._L_dist (loiter_scaled_radius realEnv cfg ahrs tecs radius)
                (geo.get_relative_pos loc center_WP) loiter_direction).length realEnv
            * realEnv.sinf (constrain_float
                (update_loiter realEnv geo cfg ahrs tecs s center_WP radius
                  loiter_direction)._last_Nu
                (-M_PI_2 realEnv) (M_PI_2 realEnv))) := by
  refine ⟨?_, ?_, ?_⟩
  · show Real.sqrt (Real.cos _ * R * (Real.cos _ * R) + Real.sin _ * R * (Real.sin _ * R)) = R
    have h : ∀ t : ℝ, Real.cos t * R * (Real.cos t * R) + Real.sin t * R * (Real.sin t * R)
        = R * R := by
      intro t
      have := Real.cos_sq_add_sin_sq t
      linear_combination (R * R) * this
    rw [h, Real.sqrt_mul_self (le_of_lt hR)]
  · intro hlen
    have habs : Complex.abs ⟨lcv.x, lcv.y⟩ = R := by
      rw [Complex.abs_apply, Complex.normSq_mk]
      exact hlen
    have hx : lcv.x = R * Real.cos (Complex.arg ⟨lcv.x, lcv.y⟩) := by
      have := Complex.abs_mul_cos_arg ⟨lcv.x, lcv.y⟩
      rw [habs] at this
      exact this.symm
    have hy : lcv.y = R * Real.sin (Complex.arg ⟨lcv.x, lcv.y⟩) := by
      have := Complex.abs_mul_sin_arg ⟨lcv.x, lcv.y⟩
      rw [habs] at this
      exact this.symm
    have hx01 : 0 ≤ d / (2 * R) ∧ d / (2 * R) ≤ 1 := by
      constructor
      · exact div_nonneg hd.1 (by linarith)
      · rw [div_le_one (by linarith)]
        exact hd.2
    have hcos := cos_two_arcsin_real (d / (2 * R)) hx01 loiter_direction hdir
    have hchord := chord_sq_real (Complex.arg ⟨lcv.x, lcv.y⟩)
      (2 * Real.arcsin (d / (2 * R)) * (loiter_direction : ℝ))
    rw [hcos] at hchord
    have hsq : (loiter_L1 realEnv d R lcv loiter_direction).x
          * (loiter_L1 realEnv d R lcv loiter_direction).x
        + (loiter_L1 realEnv d R lcv loiter_direction).y
          * (loiter_L1 realEnv d R lcv loiter_direction).y = d * d := by
      have hR0 : R ≠ 0 := ne_of_gt hR
      have h4 : (2 - 2 * (1 - 2 * (d / (2 * R) * (d / (2 * R))))) * (R * R) = d * d := by
        field_simp
        ring
      show (Real.cos (Complex.arg ⟨lcv.x, lcv.y⟩
          + 2 * Real.arcsin (d / (2 * R)) * (loiter_direction : ℝ)) * R - lcv.x)
        * (Real.cos (Complex.arg ⟨lcv.x, lcv.y⟩
          + 2 * Real.arcsin (d / (2 * R)) * (loiter_direction : ℝ)) * R - lcv.x)
        + (Real.sin (Complex.arg ⟨lcv.x, lcv.y⟩
          + 2 * Real.arcsin (d / (2 * R)) * (loiter_direction : ℝ)) * R - lcv.y)
        * (Real.sin (Complex.arg ⟨lcv.x, lcv.y⟩
          + 2 * Real.arcsin (d / (2 * R)) * (loiter_direction : ℝ)) * R - lcv.y) = d * d
      generalize Complex.arg ⟨lcv.x, lcv.y⟩ = σ at hx hy hchord ⊢
      rw [hx, hy, ← h4, ← hchord]
      ring
    show Real.sqrt ((loiter_L1 realEnv d R lcv loiter_direction).x
          * (loiter_L1 realEnv d R lcv loiter_direction).x
        + (loiter_L1 realEnv d R lcv loiter_direction).y
          * (loiter_L1 realEnv d R lcv loiter_direction).y) = d
    rw [hsq, Real.sqrt_mul_self hd.1]
  · intro geo cfg ahrs tecs s center_WP loc radius hloc
    exact update_loiter_latAccDem realEnv geo cfg ahrs tecs s center_WP loc radius
      loiter_direction hloc

/-- Witness of C16: radius 60 m, upwind distance 40 m, clockwise, aircraft 60 m North of
the centre. -/
theorem loiter_lookahead_is_chord_witness :
    (0 : ℝ) < 60 ∧ ((0 : ℝ) ≤ 40 ∧ (40 : ℝ) ≤ 2 * 60) ∧ ((1 : Int) = 1 ∨ (1 : Int) = -1) ∧
    Vector2f.length realEnv ⟨60, 0⟩ = 60 ∧
    Vector2f.length realEnv (loiter_T realEnv 40 60 ⟨60, 0⟩ 1) = 60 ∧
    Vector2f.length realEnv (loiter_L1 realEnv 40 60 ⟨60, 0⟩ 1) = 40 :=
  have hR : (0 : ℝ) < 60 := by norm_num
  have hd : (0 : ℝ) ≤ 40 ∧ (40 : ℝ) ≤ 2 * 60 := by norm_num
  have hdir : (1 : Int) = 1 ∨ (1 : Int) = -1 := Or.inl rfl
  have hlen : Vector2f.length realEnv ⟨60, 0⟩ = 60 := by
    show Real.sqrt (60 * 60 + 0 * 0) = 60
    rw [mul_zero, add_zero]
    exact Real.sqrt_mul_self (by norm_num)
  ⟨hR, hd, hdir, hlen,
    (loiter_lookahead_is_chord (Vector2f ℝ) 60 40 ⟨60, 0⟩ 1 hR hd hdir).1,
    (loiter_lookahead_is_chord (Vector2f ℝ) 60 40 ⟨60, 0⟩ 1 hR hd hdir).2.1 hlen⟩

/-- C17 fails on the code: on the default configuration (upwind distance 40, bank limit 0)
with an airspeed scale factor of 1, a requested radius of 10 m gives the scaled radius 10
and `update_loiter` passes `40 / (2 * 10) = 2` to the arc sine, outside [-1, 1]; a
requested radius of 0 gives the denominator `2 * radius = 0`, and with the aircraft on the
centre the look-ahead vector `L1` then has length 0. -/
theorem loiter_arguments_unguarded :
    (1 ≤ (defaultConfig ℝ)._L_dist ∧ (defaultConfig ℝ)._L_dist ≤ 90) ∧
    (0 ≤ (defaultConfig ℝ)._loiter_bank_limit ∧ (defaultConfig ℝ)._loiter_bank_limit ≤ 89) ∧
    loiter_scaled_radius realEnv (defaultConfig ℝ) (ahrsAtRest ℝ) none 10 = 10 ∧
    (defaultConfig ℝ)._L_dist
      / (2 * loiter_scaled_radius realEnv (defaultConfig ℝ) (ahrsAtRest ℝ) none 10) = 2 ∧
    ¬ ((defaultConfig ℝ)._L_dist
      / (2 * loiter_scaled_radius realEnv (defaultConfig ℝ) (ahrsAtRest ℝ) none 10) ≤ 1) ∧
    2 * loiter_scaled_radius realEnv (defaultConfig ℝ) (ahrsAtRest ℝ) none 0 = 0 ∧
    Vector2f.length realEnv
      (loiter_L1 realEnv (defaultConfig ℝ)._L_dist
        (loiter_scaled_radius realEnv (defaultConfig ℝ) (ahrsAtRest ℝ) none 0)
        ((planarGeo ℝ realEnv).get_relative_pos ⟨0, 0⟩ ⟨0, 0⟩) 1) = 0 := by
  have hr : ∀ r : ℝ, 0 ≤ r →
      loiter_scaled_radius realEnv (defaultConfig ℝ) (ahrsAtRest ℝ) none r = r := by
    intro r h
    simp [loiter_scaled_radius, loiter_radius, constrain_float, defaultConfig, realEnv,
      ahrsAtRest, sq, abs_of_nonneg h]
  have h10 := hr 10 (by norm_num)
  have h0 := hr 0 (le_refl 0)
  refine ⟨by norm_num [defaultConfig], by norm_num [defaultConfig], h10, ?_, ?_, ?_, ?_⟩
  · rw [h10]
    norm_num [defaultConfig]
  · rw [h10]
    norm_num [defaultConfig]
  · rw [h0]
    norm_num
  · rw [h0]
    simp [loiter_L1, loiter_T, planarGeo, Vector2f.length, Vector2f.sub, Vector2f.scale, sq,
      realEnv]

/-- The clamp to an interval with `low ≤ high` in terms of `max` and `min`. -/
theorem constrain_float_eq_max_min (x low high : F) (hlh : low ≤ high) :
    constrain_float x low high = max low (min x high) := by
  unfold constrain_float
  split_ifs with h1 h2
  · rw [min_eq_left (le_trans (le_of_lt h1) hlh), max_eq_left (le_of_lt h1)]
  · rw [min_eq_right (le_of_lt h2), max_eq_right hlh]
  · rw [min_eq_left (not_lt.mp h2), max_eq_right (not_lt.mp h1)]

/-- The clamp is monotonic non-decreasing in the clamped value. -/
theorem constrain_float_mono (x y low high : F) (hlh : low ≤ high) (h : x ≤ y) :
    constrain_float x low high ≤ constrain_float y low high := by
  rw [constrain_float_eq_max_min x low high hlh, constrain_float_eq_max_min y low high hlh]
  exact max_le_max (le_refl _) (min_le_min h (le_refl _))

/-- Truncation toward zero is monotonic non-decreasing. -/
theorem toInt32_mono [FloorRing F] (x y : F) (h : x ≤ y) : toInt32 x ≤ toInt32 y := by
  unfold toInt32
  split_ifs with hx hy hy
  · exact Int.floor_mono h
  · exact absurd (le_trans hx h) hy
  · have h1 : ⌈x⌉ ≤ 0 := Int.ceil_le.mpr (by simpa using le_of_lt (not_le.mp hx))
    have h2 : (0 : Int) ≤ ⌊y⌋ := Int.floor_nonneg.mpr hy
    omega
  · exact Int.ceil_mono h

/-- The bank angle command as a function of the lateral acceleration demand is monotonic
non-decreasing, for a positive `M_PI`, a positive `GRAVITY_MSS * cosf(pitch)` and a
monotonic arc tangent. -/
theorem nav_roll_cd_mono_of_le [FloorRing F] (env : Env F) (ahrs : AHRS Loc F) (s t : State F)
    (hpi : 0 < env.M_PI)
    (hden : 0 < env.GRAVITY_MSS
      * env.cosf (constrain_float ahrs.pitch (-radians env 60) (radians env 60)))
    (hatan : Monotone env.atanf) (h : s._latAccDem ≤ t._latAccDem) :
    nav_roll_cd env ahrs s ≤ nav_roll_cd env ahrs t := by
  unfold nav_roll_cd
  simp only
  apply toInt32_mono
  apply constrain_float_mono _ _ _ _ (by norm_num)
  apply mul_le_mul_of_nonneg_right _ (by norm_num)
  unfold degrees
  apply mul_le_mul_of_nonneg_right _ (le_of_lt (by positivity))
  apply hatan
  exact mul_le_mul_of_nonneg_right h (le_of_lt (by positivity))

/-- The bank angle command of a zero lateral acceleration demand is zero. -/
theorem nav_roll_cd_of_zero [FloorRing F] (env : Env F) (ahrs : AHRS Loc F) (s : State F)
    (hatan0 : env.atanf 0 = 0) (h : s._latAccDem = 0) : nav_roll_cd env ahrs s = 0 := by
  simp only [nav_roll_cd, h, zero_mul, hatan0, degrees, constrain_float, toInt32]
  norm_num

/-- C21: `loiter_radius` is monotonic non-decreasing in the requested radius in every
configuration: for every bank limit, every target airspeed (available or not), every
airspeed scale factor and all `r1 ≤ r2`, `loiter_radius r1 ≤ loiter_radius r2`, also across
the switch between the altitude scaling and the bank-limited branch. -/
theorem loiter_radius_monotone (env : Env F) (cfg : Config F) (ahrs : AHRS Loc F)
    (tecs : Option (TECS F)) (r1 r2 : F) (h : r1 ≤ r2) :
    loiter_radius env cfg ahrs tecs r1 ≤ loiter_radius env cfg ahrs tecs r2 := by
  have he : (0 : F) ≤ sq ahrs.EAS2TAS := mul_self_nonneg _
  simp only [loiter_radius, MAX_eq_max]
  split_ifs <;>
    first
    | exact mul_le_mul_of_nonneg_right h he
    | exact max_le_max (le_refl _) h
    | (exfalso; linarith)
    | exact le_trans (mul_le_mul_of_nonneg_right (le_of_lt (by assumption)) he)
        (le_max_left _ _)

/-- Witness of C21: bank limit 45 degrees and target airspeed 20 m/s, with the requested
radii 30 m and 60 m on either side of the switch at about 40.8 m. -/
theorem loiter_radius_monotone_witness :
    (30 : ℝ) ≤ 60 ∧
    loiter_radius realEnv (bankLimitedConfig ℝ) (ahrsAtRest ℝ) (some ⟨20⟩) 30
      ≤ loiter_radius realEnv (bankLimitedConfig ℝ) (ahrsAtRest ℝ) (some ⟨20⟩) 60 :=
  ⟨by norm_num,
    loiter_radius_monotone realEnv (bankLimitedConfig ℝ) (ahrsAtRest ℝ) (some ⟨20⟩) 30 60
      (by norm_num)⟩

/-- C22: for every pitch reading the pitch used is clamped to ±60 degrees, so that
`GRAVITY_MSS * cosf(pitch)` is at least `GRAVITY_MSS / 2 > 0`; hence a demand `≥ 0` gives
`nav_roll_cd ≥ 0`, a demand `≤ 0` gives `nav_roll_cd ≤ 0`, and `nav_roll_cd` is monotonic
non-decreasing in the demand for a fixed pitch (for a positive `M_PI` and `GRAVITY_MSS`, a
cosine that is at least 1/2 within 60 degrees of 0, and a monotonic arc tangent with
`atanf 0 = 0`). -/
theorem nav_roll_cd_sign_and_monotone [FloorRing F] (env : Env F) (ahrs : AHRS Loc F)
    (hpi : 0 < env.M_PI) (hg : 0 < env.GRAVITY_MSS)
    (hcos : ∀ x : F, -radians env 60 ≤ x → x ≤ radians env 60 → 1 / 2 ≤ env.cosf x)
    (hatan0 : env.atanf 0 = 0) (hatan : Monotone env.atanf) :
    (env.GRAVITY_MSS / 2 ≤ env.GRAVITY_MSS
        * env.cosf (constrain_float ahrs.pitch (-radians env 60) (radians env 60)) ∧
      0 < env.GRAVITY_MSS / 2) ∧
    (∀ s : State F, 0 ≤ s._latAccDem → 0 ≤ nav_roll_cd env ahrs s) ∧
    (∀ s : State F, s._latAccDem ≤ 0 → nav_roll_cd env ahrs s ≤ 0) ∧
    (∀ s t : State F, s._latAccDem ≤ t._latAccDem →
      nav_roll_cd env ahrs s ≤ nav_roll_cd env ahrs t) := by
  have hr : -radians env 60 ≤ radians env 60 := by
    have : 0 ≤ radians env 60 := by
      unfold radians
      positivity
    linarith
  obtain ⟨hlo, hhi⟩ := constrain_float_mem ahrs.pitch (-radians env 60) (radians env 60) hr
  have hc := hcos _ hlo hhi
  have hhalf : env.GRAVITY_MSS / 2 ≤ env.GRAVITY_MSS
      * env.cosf (constrain_float ahrs.pitch (-radians env 60) (radians env 60)) := by
    have := mul_le_mul_of_nonneg_left hc (le_of_lt hg)
    linarith
  have hg2 : 0 < env.GRAVITY_MSS / 2 := by positivity
  have hden := lt_of_lt_of_le hg2 hhalf
  have hzero : nav_roll_cd env ahrs (zeroState F) = 0 :=
    nav_roll_cd_of_zero env ahrs (zeroState F) hatan0 rfl
  refine ⟨⟨hhalf, hg2⟩, ?_, ?_, ?_⟩
  · intro s hs
    rw [← hzero]
    exact nav_roll_cd_mono_of_le env ahrs _ s hpi hden hatan hs
  · intro s hs
    rw [← hzero]
    exact nav_roll_cd_mono_of_le env ahrs s _ hpi hden hatan hs
  · intro s t hst
    exact nav_roll_cd_mono_of_le env ahrs s t hpi hden hatan hst

/-- Witness of C22: the real math library, a pitch reading of 2 rad (beyond 90 degrees) and
a lateral acceleration demand of 5 m/s/s. -/
theorem nav_roll_cd_sign_and_monotone_witness :
    0 < realEnv.M_PI ∧ 0 < realEnv.GRAVITY_MSS ∧
    (∀ x : ℝ, -radians realEnv 60 ≤ x → x ≤ radians realEnv 60 → 1 / 2 ≤ realEnv.cosf x) ∧
    realEnv.atanf 0 = 0 ∧ Monotone realEnv.atanf ∧ (0 : ℝ) ≤ 5 ∧
    0 ≤ nav_roll_cd realEnv { ahrsAtRest ℝ with pitch := 2 } { zeroState ℝ with _latAccDem := 5 } :=
  have hg : 0 < realEnv.GRAVITY_MSS := by norm_num [realEnv]
  have hcos : ∀ x : ℝ, -radians realEnv 60 ≤ x → x ≤ radians realEnv 60 →
      1 / 2 ≤ realEnv.cosf x := by
    intro x h1 h2
    have hr : radians realEnv 60 = Real.pi / 3 := by
      simp only [radians, realEnv]
      ring
    rw [hr] at h1 h2
    have h := Real.cos_le_cos_of_nonneg_of_le_pi (abs_nonneg x)
      (by linarith [Real.pi_pos] : Real.pi / 3 ≤ Real.pi) (abs_le.mpr ⟨h1, h2⟩)
    rw [Real.cos_abs, Real.cos_pi_div_three] at h
    exact h
  have hmono : Monotone realEnv.atanf := Real.arctan_strictMono.monotone
  have h5 : (0 : ℝ) ≤ 5 := by norm_num
  ⟨Real.pi_pos, hg, hcos, Real.arctan_zero, hmono, h5,
    (nav_roll_cd_sign_and_monotone realEnv { ahrsAtRest ℝ with pitch := 2 } Real.pi_pos hg hcos
      Real.arctan_zero hmono).2.1 { zeroState ℝ with _latAccDem := 5 } h5⟩

end Properties

end L1Control
